import Mathlib

/-!
Verification of the PPG vital-sign pipeline of vital-sense-monitor.

The development shallowly embeds the TypeScript sources:
  * `SE` — `src/utils/signalExtraction.ts`: the `SignalExtractor` class and the
    `PPGProcessor` class that lives in the same file;
  * `PP` — `src/utils/ppgProcessor.ts`: the standalone `PPGProcessor` class;
  * `UA` — `src/components/HeartRateMonitor.tsx`: the
    `UltraAdvancedPPGProcessor` class.

Numbers are embedded as rationals (`ℚ`).  JavaScript `NaN`/`undefined`
values that can flow through a computation are embedded as `Option ℚ`
(`none` = non-finite) at the sites where they matter; each such site is
commented.  `Math.sqrt` is kept as an explicit function parameter
`sqrtFn : ℚ → ℚ` of the extractor pipeline (the claims under study do not
depend on its values, and concrete runs below only evaluate it at perfect
squares, where the rational approximation `ratSqrt` agrees with the real
square root).  The collaborator modules that are imported by the processors
but are not part of the six source files (`SignalFilter`, `SignalNormalizer`,
`PeakDetector`, `SignalFrequencyAnalyzer`, `SignalProcessor`, `MLModel`,
`BeepPlayer`) are embedded as an abstract record of deterministic stateful
functions over an arbitrary external state type `σ`; every theorem about the
pipeline quantifies over all such records, so the results hold whatever code
those modules contain.
-/

/-- A camera frame, standing in for the DOM `ImageData`: a width, a height and
the flat RGBA sample array.  JS array indexing is total (out-of-range access
yields `undefined`); the embedding makes `data` a total function on `ℤ` and
concrete frames below return a sentinel value `-1` outside the array bounds,
which behaves exactly like `undefined` in every comparison the extractors
perform (it fails the `red > 45` acceptance test, as `undefined > 45` does). -/
structure Frame where
  width : ℕ
  height : ℕ
  data : ℤ → ℚ

/-- JS `x || 0` on a number that is not `NaN`: `0` stays `0`, anything else is
itself. -/
def jsOrZero (q : ℚ) : ℚ := if q = 0 then 0 else q

/-- JS `Array.prototype.push` followed by `shift()` once the length exceeds
`cap` (the smoothing-window bookkeeping used throughout the sources). -/
def pushTrim (l : List ℚ) (v : ℚ) (cap : ℕ) : List ℚ :=
  let l' := l ++ [v]
  if cap < l'.length then l'.tail else l'

/-- Mean of a list, `sum / length` (the `reduce((a,b) => a+b, 0) / length`
idiom of the sources).  Callers only use it on non-empty lists. -/
def listMean (l : List ℚ) : ℚ := l.sum / (l.length : ℚ)

/-- Population variance of a list around `m`, the
`reduce((a,b) => a + Math.pow(b - m, 2), 0) / length` idiom. -/
def listVarAround (l : List ℚ) (m : ℚ) : ℚ :=
  (l.map (fun b => (b - m) ^ 2)).sum / (l.length : ℚ)

/-- A computable stand-in for `Math.sqrt`, exact on perfect squares (in
particular `ratSqrt 0 = 0`); used only to instantiate the abstract `sqrtFn`
parameter in concrete runs that evaluate the square root at `0`. -/
def ratSqrt (q : ℚ) : ℚ := (Nat.sqrt q.num.toNat : ℚ) / (Nat.sqrt q.den : ℚ)

namespace SE

/-! ## `SignalExtractor` (src/utils/signalExtraction.ts, first class) -/

/-- Mutable fields of the `SignalExtractor` instance: the two smoothing
windows, the frame counter, the stability window, and the 1-D Kalman filter
state (`q = 0.1` and `r = 0.8` are the `readonly` process/measurement noise
constants and stay out of the state; `k` is stored like the source does even
though it is recomputed before every use). -/
structure ExtractorState where
  lastRedValues : List ℚ
  lastIrValues : List ℚ
  frameCount : ℕ
  lastStabilityValues : List ℚ
  kp : ℚ
  kx : ℚ
  kk : ℚ
deriving DecidableEq

/-- The freshly constructed `SignalExtractor`. -/
def initExtractor : ExtractorState :=
  { lastRedValues := [], lastIrValues := [], frameCount := 0,
    lastStabilityValues := [], kp := 1, kx := 0, kk := 0 }

/-- `applyKalmanFilter(measurement)`. -/
def applyKalmanFilter (s : ExtractorState) (measurement : ℚ) : ℚ × ExtractorState :=
  let p := s.kp + 1/10
  let k := p / (p + 4/5)
  let x := s.kx + k * (measurement - s.kx)
  let p' := (1 - k) * p
  (x, { s with kp := p', kx := x, kk := k })

/-- `calculateStability(value)`.  The division `Math.sqrt(variance) / mean`
is embedded with the given `sqrtFn`; in every call reachable from the fresh
extractor the mean is positive (the window holds Kalman means of pixel
averages that exceed the 45 intensity floor), so the rational division
agrees with the JS one there. -/
def calculateStability (sqrtFn : ℚ → ℚ) (s : ExtractorState) (value : ℚ) :
    ℚ × ExtractorState :=
  let vals := pushTrim s.lastStabilityValues value 10
  let s' := { s with lastStabilityValues := vals }
  if vals.length < 5 then (0, s')
  else
    let mean := listMean vals
    let variance := listVarAround vals mean
    (1 - min 1 (sqrtFn variance / mean), s')

/-- Accumulator of the pixel scan in `extractChannels`: running sums, the
count of accepted pixels, the running maxima, and the minimum of the accepted
red values (the source keeps the whole `validRedValues` array but only ever
consumes it through `Math.min(...validRedValues)`, which this field is). -/
structure ScanAcc where
  redSum : ℚ
  irSum : ℚ
  pixelCount : ℕ
  maxRed : ℚ
  maxIr : ℚ
  minValidRed : Option ℚ
deriving DecidableEq

def scanInit : ScanAcc :=
  { redSum := 0, irSum := 0, pixelCount := 0, maxRed := 0, maxIr := 0, minValidRed := none }

/-- One iteration of the pixel loop body of `extractChannels`: accept the
pixel iff `red > 45 && red < 250` (`minIntensity`/`maxIntensity`). -/
def scanStep (f : Frame) (acc : ScanAcc) (y x : ℤ) : ScanAcc :=
  let i := (y * (f.width : ℤ) + x) * 4
  let red := f.data i
  let green := f.data (i + 1)
  let blue := f.data (i + 2)
  let ir := (green + blue) / 2
  if 45 < red ∧ red < 250 then
    { redSum := acc.redSum + red
      irSum := acc.irSum + ir
      pixelCount := acc.pixelCount + 1
      maxRed := max acc.maxRed red
      maxIr := max acc.maxIr ir
      minValidRed := some (match acc.minValidRed with
        | none => red
        | some m => min m red) }
  else acc

/-- The loop offsets `-regionSize .. regionSize - 1` around the centre
(`regionSize = 50`; the loops run `y` from `centerY - 50` to `centerY + 49`
and likewise for `x`, with no bounds check in this extractor). -/
def regionOffsets : List ℤ := (List.range 100).map (fun (k : ℕ) => (k : ℤ) - 50)

/-- The full pixel scan of `extractChannels` (outer loop on `y`, inner on
`x`, centred at `(⌊width/2⌋, ⌊height/2⌋)`). -/
def seScan (f : Frame) : ScanAcc :=
  regionOffsets.foldl
    (fun acc oy =>
      regionOffsets.foldl
        (fun acc2 ox =>
          scanStep f acc2 ((f.height / 2 : ℕ) + oy) ((f.width / 2 : ℕ) + ox))
        acc)
    scanInit

/-- The `{ red, ir, quality, perfusionIndex }` record returned by
`extractChannels`. -/
structure ChannelSample where
  red : ℚ
  ir : ℚ
  quality : ℚ
  perfusionIndex : ℚ
deriving DecidableEq

def zeroSample : ChannelSample := ⟨0, 0, 0, 0⟩

/-- The accepted-pixel continuation of `extractChannels` (everything after
the two finger-presence gates): smoothing windows, the shared Kalman filter
applied to the red mean and then to the infrared mean, stability, perfusion
index and the composite quality.  On this path `pixelCount ≥ 100`, so
`minValidRed` is `some` and `maxRed > 45`; the `getD 0` default is never
used. -/
def extractAccepted (sqrtFn : ℚ → ℚ) (s : ExtractorState) (a : ScanAcc)
    (avgRed avgIr : ℚ) : ChannelSample × ExtractorState :=
  let lr := pushTrim s.lastRedValues avgRed 5
  let li := pushTrim s.lastIrValues avgIr 5
  let s1 := { s with lastRedValues := lr, lastIrValues := li }
  let rK := applyKalmanFilter s1 (listMean lr)
  let iK := applyKalmanFilter rK.2 (listMean li)
  let st := calculateStability sqrtFn iK.2 rK.1
  let perfusionIndex := (a.maxRed - a.minValidRed.getD 0) / a.maxRed * 100
  let pixelQuality := min 1 ((a.pixelCount : ℚ) / 200)
  let stabilityQuality := if 3/20 < st.1 then 1 else st.1 / (3/20)
  let quality := min pixelQuality stabilityQuality
  (⟨rK.1, iK.1, quality, perfusionIndex⟩, st.2)

/-- `SignalExtractor.extractChannels(imageData)`.  The red-dominance gate
embeds the JS comparison `avgRed / avgIr < 1.2` faithfully: when
`avgIr = 0` the JS quotient is `+Infinity` (`avgRed > 45` on this path) or
`NaN`, and neither compares `< 1.2`, so the gate does NOT reject; hence the
rejection condition is `avgIr ≠ 0 ∧ avgRed / avgIr < 6/5`. -/
def extractChannels (sqrtFn : ℚ → ℚ) (s : ExtractorState) (f : Frame) :
    ChannelSample × ExtractorState :=
  let s0 := { s with frameCount := s.frameCount + 1 }
  let a := seScan f
  if a.pixelCount < 100 then (zeroSample, s0)
  else
    let avgRed := a.redSum / (a.pixelCount : ℚ)
    let avgIr := a.irSum / (a.pixelCount : ℚ)
    if avgIr ≠ 0 ∧ avgRed / avgIr < 6/5 then (zeroSample, s0)
    else extractAccepted sqrtFn s0 a avgRed avgIr

end SE

namespace SE

/-! ## `PPGProcessor` (src/utils/signalExtraction.ts, second class) -/

/-- Result record of `SignalProcessor.analyzeHRV`. -/
structure HRVOut where
  hasArrhythmia : Bool
  type : String
  sdnn : ℚ
  rmssd : ℚ
  pnn50 : ℚ
  lfhf : ℚ
deriving DecidableEq

/-- Result record of `SignalProcessor.calculateSpO2`. -/
structure SpO2Out where
  spo2 : ℚ
  confidence : ℚ
deriving DecidableEq

/-- Result record of `SignalProcessor.estimateBloodPressure`. -/
structure BPOut where
  systolic : ℚ
  diastolic : ℚ
deriving DecidableEq

/-- The collaborator modules imported by this processor but not among the
source files (`SignalFilter`, `SignalNormalizer`, `PeakDetector`,
`SignalFrequencyAnalyzer`, `SignalProcessor`, `MLModel`, `BeepPlayer`),
embedded as deterministic state-threading functions over an arbitrary
external state `σ`.  `mlPredict` returns the three predicted thresholds,
with `none` standing for a non-finite (`NaN`) component. -/
structure Collab (σ : Type) where
  lowPassFilter : σ → List ℚ → ℚ → List ℚ × σ
  normalizeSignal : σ → ℚ → ℚ × σ
  isRealPeak : σ → ℚ → ℚ → List ℚ → Bool × σ
  performFFT : σ → List ℚ → (List ℚ × List ℚ) × σ
  analyzeHRV : σ → List ℚ → HRVOut × σ
  calculateSpO2 : σ → List ℚ → List ℚ → SpO2Out × σ
  estimateBloodPressure : σ → List ℚ → List ℚ → BPOut × σ
  analyzeSignalQuality : σ → List ℚ → ℚ × σ
  mlPredict : σ → List ℚ → (Option ℚ × Option ℚ × Option ℚ) × σ
  mlTrain : σ → List (List ℚ) → List (List ℚ) → σ
  playBeep : σ → ℚ → σ

/-- The three `processingSettings` fields this processor ever reads or that
the ML loop may rewrite (`MIN_RED_VALUE`, `PEAK_THRESHOLD_FACTOR`,
`MIN_VALID_PIXELS_RATIO`); the remaining fields of the source record are
constants that no embedded operation consumes. -/
structure ProcessingSettings where
  MIN_RED_VALUE : ℚ
  PEAK_THRESHOLD_FACTOR : ℚ
  MIN_VALID_PIXELS_RATIO : ℚ
deriving DecidableEq

/-- Initial `processingSettings` values. -/
def initSettings : ProcessingSettings :=
  { MIN_RED_VALUE := 15, PEAK_THRESHOLD_FACTOR := 2/5, MIN_VALID_PIXELS_RATIO := 1/5 }

/-- `sensitivitySettings` (settable by the caller; constant in a run). -/
structure Sens where
  signalAmplification : ℚ
  noiseReduction : ℚ
  peakDetection : ℚ
deriving DecidableEq

def initSens : Sens := { signalAmplification := 3/2, noiseReduction := 6/5, peakDetection := 13/10 }

/-- Mutable instance state of this `PPGProcessor`: its `SignalExtractor`,
the ring buffers, the peak-time history, the bounded training history, the
last accepted vitals, the settings, and the collaborator state `σ`. -/
structure ProcState (σ : Type) where
  se : ExtractorState
  readings : List (ℚ × ℚ)
  redBuffer : List ℚ
  irBuffer : List ℚ
  peakTimes : List ℚ
  signalBuffer : List ℚ
  trainingData : List (List ℚ)
  targetData : List (List ℚ)
  frameCount : ℕ
  lastValidBpm : ℚ
  lastValidSystolic : ℚ
  lastValidDiastolic : ℚ
  settings : ProcessingSettings
  sens : Sens
  ext : σ

/-- The freshly constructed processor (constructor field initialisers). -/
def initProc {σ : Type} (e : σ) : ProcState σ :=
  { se := initExtractor, readings := [], redBuffer := [], irBuffer := [],
    peakTimes := [], signalBuffer := [], trainingData := [], targetData := [],
    frameCount := 0, lastValidBpm := 0, lastValidSystolic := 120,
    lastValidDiastolic := 80, settings := initSettings, sens := initSens, ext := e }

/-- The `PPGData` snapshot returned by `processFrame`. -/
structure PPGData where
  bpm : ℚ
  spo2 : ℚ
  systolic : ℚ
  diastolic : ℚ
  hasArrhythmia : Bool
  arrhythmiaType : String
  signalQuality : ℚ
  confidence : ℚ
  readings : List (ℚ × ℚ)
  isPeak : Bool
  sdnn : ℚ
  rmssd : ℚ
  pnn50 : ℚ
  lfhf : ℚ
deriving DecidableEq

/-- The all-zero snapshot returned on the no-finger / low-quality path. -/
def zeroPPGData : PPGData :=
  { bpm := 0, spo2 := 0, systolic := 0, diastolic := 0, hasArrhythmia := false,
    arrhythmiaType := "Normal", signalQuality := 0, confidence := 0,
    readings := [], isPeak := false, sdnn := 0, rmssd := 0, pnn50 := 0, lfhf := 0 }

/-- `validateVitalSigns(bpm, systolic, diastolic)`: takes the current
last-valid triple, returns the validated output triple and the updated
last-valid triple.  `bpm` is `Option ℚ` because the FFT-derived rate is
`NaN` when the magnitude list is degenerate (`none` fails the JS range test
`bpm >= 40 && bpm <= 200` exactly as `NaN` does). -/
def validBpmOf (lastBpm : ℚ) (bpm : Option ℚ) : ℚ :=
  match bpm with
  | some b => if 40 ≤ b ∧ b ≤ 200 then b else jsOrZero lastBpm
  | none => jsOrZero lastBpm

def validateVitalSigns (lastBpm lastSys lastDia : ℚ) (bpm : Option ℚ)
    (systolic diastolic : ℚ) : (ℚ × ℚ × ℚ) × (ℚ × ℚ × ℚ) :=
  let validBpm := validBpmOf lastBpm bpm
  let validSystolic := if 90 ≤ systolic ∧ systolic ≤ 180 then systolic else lastSys
  let validDiastolic := if 60 ≤ diastolic ∧ diastolic ≤ 120 then diastolic else lastDia
  if validSystolic ≤ validDiastolic then
    ((validBpm, lastSys, lastDia), (lastBpm, lastSys, lastDia))
  else
    ((validBpm, validSystolic, validDiastolic), (validBpm, validSystolic, validDiastolic))

/-- The settings-rewriting part of `updateSettingsWithML`: if any predicted
component is `NaN` nothing changes; otherwise each component is applied only
when it lies inside its hard-coded safe range. -/
def applyMLSettings (s : ProcessingSettings) (p : Option ℚ × Option ℚ × Option ℚ) :
    ProcessingSettings :=
  match p with
  | (some v0, some v1, some v2) =>
    let s1 := if 10 ≤ v0 ∧ v0 ≤ 30 then { s with MIN_RED_VALUE := v0 } else s
    let s2 := if 3/10 ≤ v1 ∧ v1 ≤ 7/10 then { s1 with PEAK_THRESHOLD_FACTOR := v1 } else s1
    if 1/10 ≤ v2 ∧ v2 ≤ 1/2 then { s2 with MIN_VALID_PIXELS_RATIO := v2 } else s2
  | _ => s

/-- `saveTrainingData(calculatedBpm, spo2, signalQuality)`. -/
def saveTrainingData {σ : Type} (s : ProcState σ) (bpm spo2 q : ℚ) : ProcState σ :=
  if 40 < bpm ∧ bpm < 200 ∧ 75 ≤ spo2 ∧ spo2 ≤ 100 ∧ 1/5 < q then
    let td := s.trainingData ++ [[bpm, spo2, q]]
    let gd := s.targetData ++ [[s.settings.MIN_RED_VALUE,
      s.settings.PEAK_THRESHOLD_FACTOR, s.settings.MIN_VALID_PIXELS_RATIO]]
    if 100 < td.length then { s with trainingData := td.tail, targetData := gd.tail }
    else { s with trainingData := td, targetData := gd }
  else s

/-- The FFT-derived rate: `frequencies[magnitudes.indexOf(Math.max(...magnitudes))] * 60`.
With an empty magnitude list `Math.max()` is `-Infinity`, `indexOf` is `-1`,
the indexing yields `undefined` and the product is `NaN` (embedded `none`);
the same happens when the argmax index falls outside `frequencies`. -/
def fftBpm (frequencies magnitudes : List ℚ) : Option ℚ :=
  match magnitudes.max? with
  | none => none
  | some m => (frequencies.get? (magnitudes.indexOf m)).map (· * 60)

/-- The final section of `processFrame` (validation of the vitals, the
training/ML block guarded by `frameCount % 30`, and the snapshot assembly),
taken out as a named function of the intermediate results so that the
invariant proofs can reason about it in isolation. -/
def finalizeFrame {σ : Type} (C : Collab σ) (s : ProcState σ)
    (readings0 : List (ℚ × ℚ)) (redBuffer irBuffer signalBuffer peakTimes : List ℚ)
    (isPeak : Bool) (calculatedBpm : Option ℚ) (hrv : HRVOut) (spo2Result : SpO2Out)
    (bp : BPOut) (signalQuality : ℚ) (e9 : σ) : PPGData × ProcState σ :=
  let v := validateVitalSigns s.lastValidBpm s.lastValidSystolic
    s.lastValidDiastolic calculatedBpm bp.systolic bp.diastolic
  let vout := v.1
  let s1 : ProcState σ :=
    { s with readings := readings0, redBuffer := redBuffer, irBuffer := irBuffer,
             peakTimes := peakTimes, signalBuffer := signalBuffer,
             lastValidBpm := v.2.1, lastValidSystolic := v.2.2.1,
             lastValidDiastolic := v.2.2.2, ext := e9 }
  let s2 :=
    if s1.frameCount % 30 = 0 ∧ 0 < vout.1 then
      let sA := saveTrainingData s1 vout.1 spo2Result.spo2 signalQuality
      let eT := if 10 < sA.trainingData.length then
          C.mlTrain sA.ext sA.trainingData sA.targetData else sA.ext
      let prd := C.mlPredict eT [vout.1, spo2Result.spo2, signalQuality]
      { sA with ext := prd.2, settings := applyMLSettings sA.settings prd.1 }
    else s1
  ({ bpm := vout.1, spo2 := min 100 (max 75 spo2Result.spo2),
     systolic := vout.2.1, diastolic := vout.2.2,
     hasArrhythmia := hrv.hasArrhythmia, arrhythmiaType := hrv.type,
     signalQuality := signalQuality, confidence := spo2Result.confidence,
     readings := readings0, isPeak := isPeak, sdnn := hrv.sdnn,
     rmssd := hrv.rmssd, pnn50 := hrv.pnn50, lfhf := hrv.lfhf }, s2)

/-- `PPGProcessor.processFrame(imageData)` of signalExtraction.ts, with the
per-call `Date.now()` reading passed in as `now`. -/
def processFrame {σ : Type} (C : Collab σ) (sqrtFn : ℚ → ℚ) (s : ProcState σ)
    (f : Frame) (now : ℚ) : PPGData × ProcState σ :=
  let s := { s with frameCount := s.frameCount + 1 }
  let ec := extractChannels sqrtFn s.se f
  let sample := ec.1
  let s := { s with se := ec.2 }
  if sample.quality < 1/5 ∨ sample.red < s.settings.MIN_RED_VALUE then
    (zeroPPGData, { s with redBuffer := [], irBuffer := [], readings := [], peakTimes := [] })
  else
    let amplifiedRed := sample.red * s.sens.signalAmplification
    let amplifiedIr := sample.ir * s.sens.signalAmplification
    let redBuffer0 := s.redBuffer ++ [amplifiedRed]
    let irBuffer0 := s.irBuffer ++ [amplifiedIr]
    let redBuffer := if 300 < redBuffer0.length then redBuffer0.tail else redBuffer0
    let irBuffer := if 300 < redBuffer0.length then irBuffer0.tail else irBuffer0
    let lpf := C.lowPassFilter s.ext redBuffer (5 * s.sens.noiseReduction)
    let filteredRed := lpf.1
    let nrm := C.normalizeSignal lpf.2 (filteredRed.getLastD 0)
    let normalizedValue := nrm.1
    let signalBuffer0 := s.signalBuffer ++ [normalizedValue]
    let signalBuffer := if 30 < signalBuffer0.length then signalBuffer0.tail else signalBuffer0
    let pk := C.isRealPeak nrm.2 normalizedValue now signalBuffer
    let isPeak := pk.1
    let readings0 :=
      if isPeak then
        let r := (now, normalizedValue) :: s.readings
        if 300 < r.length then r.dropLast else r
      else
        let r := s.readings ++ [(now, normalizedValue)]
        if 300 < r.length then r.tail else r
    let peakTimes :=
      if isPeak then
        let p := s.peakTimes ++ [now]
        if 10 < p.length then p.tail else p
      else s.peakTimes
    let e4 := if isPeak then C.playBeep pk.2 sample.quality else pk.2
    let fft := C.performFFT e4 filteredRed
    let calculatedBpm := fftBpm fft.1.1 fft.1.2
    let intervals := (peakTimes.zip peakTimes.tail).map (fun pr => pr.2 - pr.1)
    let hrvR := C.analyzeHRV fft.2 intervals
    let spo2R := C.calculateSpO2 hrvR.2 redBuffer irBuffer
    let bpR := C.estimateBloodPressure spo2R.2 filteredRed peakTimes
    let sqR := C.analyzeSignalQuality bpR.2 filteredRed
    finalizeFrame C s readings0 redBuffer irBuffer signalBuffer peakTimes isPeak
      calculatedBpm hrvR.1 spo2R.1 bpR.1 sqR.1 sqR.2

/-- Driving the processor over a sequence of frames, each paired with the
`Date.now()` value observed during its invocation; returns the emitted
snapshots in order together with the final state. -/
def runProc {σ : Type} (C : Collab σ) (sqrtFn : ℚ → ℚ) :
    ProcState σ → List (Frame × ℚ) → List PPGData × ProcState σ
  | s, [] => ([], s)
  | s, (f, t) :: rest =>
    let r := processFrame C sqrtFn s f t
    let rest' := runProc C sqrtFn r.2 rest
    (r.1 :: rest'.1, rest'.2)

end SE

namespace PP

/-! ## `PPGProcessor` (src/utils/ppgProcessor.ts) -/

/-- JS `Math.round`: `⌊x + 1/2⌋` (exact JS semantics on finite numbers,
including negative halves). -/
def jsRound (q : ℚ) : ℚ := (⌊q + 1/2⌋ : ℤ)

/-- `minPeakDistance` (`readonly`, milliseconds). -/
def minPeakDistance : ℚ := 500

/-- Accumulator of the pixel scan in this file's `extractChannels`: running
sums, the in-bounds pixel count, and the saturation count. -/
structure PPAcc where
  redSum : ℚ
  irSum : ℚ
  pixelCount : ℕ
  saturationCount : ℕ
deriving DecidableEq

def ppAccInit : PPAcc := ⟨0, 0, 0, 0⟩

/-- One iteration of the loop body: this extractor checks bounds explicitly
(`x >= 0 && x < width && y >= 0 && y < height`) and counts every in-bounds
pixel; saturation is `red > 250 || red < 5`. -/
def scanStep (f : Frame) (acc : PPAcc) (y x : ℤ) : PPAcc :=
  if 0 ≤ x ∧ x < (f.width : ℤ) ∧ 0 ≤ y ∧ y < (f.height : ℤ) then
    let i := (y * (f.width : ℤ) + x) * 4
    let red := f.data i
    let green := f.data (i + 1)
    let blue := f.data (i + 2)
    { redSum := acc.redSum + red
      irSum := acc.irSum + (green * (7/10) + blue * (3/10))
      pixelCount := acc.pixelCount + 1
      saturationCount := acc.saturationCount + (if 250 < red ∨ red < 5 then 1 else 0) }
  else acc

/-- The full pixel scan (same fixed `±50` region around the centre). -/
def ppScan (f : Frame) : PPAcc :=
  SE.regionOffsets.foldl
    (fun acc oy =>
      SE.regionOffsets.foldl
        (fun acc2 ox =>
          scanStep f acc2 ((f.height / 2 : ℕ) + oy) ((f.width / 2 : ℕ) + ox))
        acc)
    ppAccInit

/-- The `{ red, ir, quality }` record of this extractor.  The channel
averages are guarded by the source's `pixelCount > 0 ?` ternaries; the
quality division `1 - saturationCount / pixelCount` is NOT guarded, so with
`pixelCount = 0` it is `NaN` (embedded `none`). -/
structure PPSample where
  red : ℚ
  ir : ℚ
  quality : Option ℚ
deriving DecidableEq

def extractChannels (f : Frame) : PPSample :=
  let a := ppScan f
  { red := if 0 < a.pixelCount then a.redSum / (a.pixelCount : ℚ) else 0
    ir := if 0 < a.pixelCount then a.irSum / (a.pixelCount : ℚ) else 0
    quality := if a.pixelCount = 0 then none
      else some (1 - (a.saturationCount : ℚ) / (a.pixelCount : ℚ)) }

/-- The gate `quality < this.qualityThreshold` (0.6).  A `NaN` quality
(`none`) compares false, so the frame is NOT rejected in that case. -/
def qualityLow (q : Option ℚ) : Bool :=
  match q with
  | some v => decide (v < 3/5)
  | none => false

/-- Mutable instance state of this `PPGProcessor`; `κ` is the type of the
optional `UserCalibration` payload and `σ` the collaborator state. -/
structure PPState (σ κ : Type) where
  readings : List (ℚ × ℚ)
  redBuffer : List ℚ
  irBuffer : List ℚ
  peakTimes : List ℚ
  lastPeakTime : ℚ
  signalBuffer : List ℚ
  baseline : ℚ
  adaptiveThreshold : ℚ
  calibrationData : Option κ
  ext : σ

/-- The freshly constructed processor. -/
def initPP {σ κ : Type} (e : σ) : PPState σ κ :=
  { readings := [], redBuffer := [], irBuffer := [], peakTimes := [],
    lastPeakTime := 0, signalBuffer := [], baseline := 0, adaptiveThreshold := 0,
    calibrationData := none, ext := e }

/-- The collaborator surface this processor uses (`SignalProcessor` and
`BeepPlayer`), abstract deterministic state-threading functions. -/
structure Collab (σ κ : Type) where
  lowPassFilter : σ → List ℚ → ℚ → List ℚ × σ
  performFFT : σ → List ℚ → (List ℚ × List ℚ) × σ
  analyzeHRV : σ → List ℚ → SE.HRVOut × σ
  calculateSpO2 : σ → List ℚ → List ℚ → ℚ × σ
  estimateBloodPressure : σ → List ℚ → List ℚ → SE.BPOut × σ
  estimateBloodPressureWithCalibration : σ → List ℚ → List ℚ → κ → SE.BPOut × σ
  analyzeSignalQuality : σ → List ℚ → ℚ × σ
  playBeep : σ → σ

/-- `normalizeSignal(value)`: exponential baseline tracking; returns the
scaled normalized value and the new baseline. -/
def normalizeSignal (baseline v : ℚ) : ℚ × ℚ :=
  let b := baseline * (19/20) + v * (1/20)
  let normalized := v - b
  (normalized * 100 / max |b| 1, b)

/-- `validatePeakShape(currentValue)` over the last four buffered samples.
When the buffer holds fewer than four samples `samples[3]` is `undefined`,
the derivative comparison against `NaN` is false, and the result is
`false`. -/
def validatePeakShape (signalBuffer : List ℚ) (adaptiveThreshold v : ℚ) : Bool :=
  let samples := signalBuffer.drop (signalBuffer.length - 4)
  match samples with
  | [s0, s1, s2, s3] =>
    let derivative1 := s2 - s1
    let derivative2 := s3 - s2
    let peakAmplitude := |v - min s0 (min s1 (min s2 s3))|
    decide (0 < derivative1 ∧ derivative2 < 0 ∧ adaptiveThreshold * (3/10) < peakAmplitude)
  | _ => false

/-- `isRealPeak(currentValue, now)`: the refractory gate, the buffer-size
gate, the adaptive threshold, the two-predecessor test and the shape test;
on acceptance the adaptive threshold is updated and the beep side channel
fires. -/
def isRealPeak {σ κ : Type} (beep : σ → σ) (s : PPState σ κ) (v now : ℚ) :
    Bool × PPState σ κ :=
  if now - s.lastPeakTime < minPeakDistance then (false, s)
  else if s.signalBuffer.length < 3 then (false, s)
  else
    let recentValues := s.signalBuffer.drop (s.signalBuffer.length - 5)
    let avgValue := listMean recentValues
    let threshold := max (avgValue * (3/5)) (s.adaptiveThreshold * (7/10))
    let isPeak := decide (threshold < v) &&
      decide (s.signalBuffer.getD (s.signalBuffer.length - 2) 0 < v) &&
      decide (s.signalBuffer.getD (s.signalBuffer.length - 3) 0 < v) &&
      validatePeakShape s.signalBuffer s.adaptiveThreshold v
    if isPeak then
      (true, { s with adaptiveThreshold := s.adaptiveThreshold * (19/20) + v * (1/20),
                      ext := beep s.ext })
    else (false, s)

/-- The snapshot returned by this `processFrame`; `bpm` is `Option ℚ`
because `Math.round` of the FFT rate is `NaN` when the magnitude spectrum is
degenerate. -/
structure PPOut where
  bpm : Option ℚ
  spo2 : ℚ
  systolic : ℚ
  diastolic : ℚ
  hasArrhythmia : Bool
  arrhythmiaType : String
  signalQuality : ℚ
deriving DecidableEq

/-- The final section of this `processFrame` (peak bookkeeping from the
`isRealPeak` result onwards, FFT, analyses, snapshot assembly), taken out
as a named function of the intermediate results. -/
def finishFrame {σ κ : Type} (C : Collab σ κ) (redBuffer irBuffer filteredRed : List ℚ)
    (pkr : Bool × PPState σ κ) (now : ℚ) : Option PPOut × PPState σ κ :=
  let isPeak := pkr.1
  let sPk := pkr.2
  let sPk2 :=
    if isPeak then
      let p := sPk.peakTimes ++ [now]
      { sPk with ext := C.playBeep sPk.ext, lastPeakTime := now,
                 peakTimes := if 10 < p.length then p.tail else p }
    else sPk
  let fft := C.performFFT sPk2.ext filteredRed
  let calculatedBpm := SE.fftBpm fft.1.1 fft.1.2
  let intervals := (sPk2.peakTimes.zip sPk2.peakTimes.tail).map (fun pr => pr.2 - pr.1)
  let hrvR := C.analyzeHRV fft.2 intervals
  let spo2R := C.calculateSpO2 hrvR.2 redBuffer irBuffer
  let bpR :=
    match sPk2.calibrationData with
    | some cd => C.estimateBloodPressureWithCalibration spo2R.2 filteredRed sPk2.peakTimes cd
    | none => C.estimateBloodPressure spo2R.2 filteredRed sPk2.peakTimes
  let sqR := C.analyzeSignalQuality bpR.2 filteredRed
  (some { bpm := calculatedBpm.map jsRound, spo2 := spo2R.1,
          systolic := bpR.1.systolic, diastolic := bpR.1.diastolic,
          hasArrhythmia := hrvR.1.hasArrhythmia, arrhythmiaType := hrvR.1.type,
          signalQuality := sqR.1 },
   { sPk2 with ext := sqR.2 })

/-- `PPGProcessor.processFrame(imageData)` of ppgProcessor.ts; returns
`none` (the source's `null`) on the low-quality gate. -/
def processFrame {σ κ : Type} (C : Collab σ κ) (s : PPState σ κ) (f : Frame)
    (now : ℚ) : Option PPOut × PPState σ κ :=
  let sample := extractChannels f
  if qualityLow sample.quality then (none, s)
  else
    let redBuffer0 := s.redBuffer ++ [sample.red]
    let irBuffer0 := s.irBuffer ++ [sample.ir]
    let redBuffer := if 300 < redBuffer0.length then redBuffer0.tail else redBuffer0
    let irBuffer := if 300 < redBuffer0.length then irBuffer0.tail else irBuffer0
    let lpf := C.lowPassFilter s.ext redBuffer 5
    let filteredRed := lpf.1
    let nrm := normalizeSignal s.baseline (filteredRed.getLastD 0)
    let normalizedValue := nrm.1
    let readings0 := s.readings ++ [(now, normalizedValue)]
    let readings := if 300 < readings0.length then readings0.drop (readings0.length - 300)
      else readings0
    let signalBuffer0 := s.signalBuffer ++ [normalizedValue]
    let signalBuffer := if 30 < signalBuffer0.length then signalBuffer0.tail else signalBuffer0
    let sMid : PPState σ κ :=
      { s with readings := readings, redBuffer := redBuffer, irBuffer := irBuffer,
               signalBuffer := signalBuffer, baseline := nrm.2, ext := lpf.2 }
    finishFrame C redBuffer irBuffer filteredRed
      (isRealPeak C.playBeep sMid normalizedValue now) now

/-- Driving this processor over a sequence of frames with their `Date.now()`
readings. -/
def runPP {σ κ : Type} (C : Collab σ κ) :
    PPState σ κ → List (Frame × ℚ) → List (Option PPOut) × PPState σ κ
  | s, [] => ([], s)
  | s, (f, t) :: rest =>
    let r := processFrame C s f t
    let rest' := runPP C r.2 rest
    (r.1 :: rest'.1, rest'.2)

end PP

namespace UA

/-! ## `UltraAdvancedPPGProcessor` (src/components/HeartRateMonitor.tsx) -/

/-- The inter-beat intervals derived from a peak list
(`for i from 1: intervals.push(peaks[i] - peaks[i-1])`). -/
def intervalsOfPeaks (peaks : List ℚ) : List ℚ :=
  (peaks.zip peaks.tail).map (fun pr => pr.2 - pr.1)

/-- `calculateHeartRateVariability(peaks)`: `0` with fewer than two peaks,
otherwise the coefficient of variation `sqrt(variance) / mean` of the
successive intervals.  The square root forces the value into `ℝ`. -/
noncomputable def calculateHeartRateVariability (peaks : List ℚ) : ℝ :=
  if peaks.length < 2 then 0
  else
    let intervals := intervalsOfPeaks peaks
    let mean := listMean intervals
    let variance := listVarAround intervals mean
    Real.sqrt (variance : ℝ) / (mean : ℝ)

/-- `const hasArrhythmia = hrv > 0.2` (processFrame, line 425). -/
def uaHasArrhythmia (peaks : List ℚ) : Prop :=
  calculateHeartRateVariability peaks > 1/5

/-- `arrhythmiaType: hasArrhythmia ? 'Irregular' : 'Normal'` (line 445); the
real-valued comparison is decided classically. -/
noncomputable def uaArrhythmiaType (peaks : List ℚ) : String :=
  @ite String (uaHasArrhythmia peaks) (Classical.propDecidable _) "Irregular" "Normal"

/-- A peak list whose successive intervals are the Scenario D inter-beat
intervals `[800, 820, 795, 1400, 810]` ms. -/
def scenarioDPeaks : List ℚ := [0, 800, 1620, 2415, 3815, 4625]

end UA

/-! ## Concrete inputs and collaborator instances used by the witnesses -/

/-- A 100×100 frame whose in-bounds RGBA samples are the constant colour
`(r, g, b, 255)`; out-of-bounds indices return the sentinel `-1`
(JS `undefined`, which fails every acceptance comparison). -/
def uniformFrame (r g b : ℚ) : Frame :=
  { width := 100, height := 100,
    data := fun i =>
      if 0 ≤ i ∧ i < 40000 then
        if i % 4 = 0 then r else if i % 4 = 1 then g else if i % 4 = 2 then b else 255
      else -1 }

/-- A frame whose every sample is `0` (an all-black image): every pixel
fails the `red > 45` acceptance test of `SignalExtractor`. -/
def blackFrame : Frame := { width := 100, height := 100, data := fun _ => 0 }

/-- Uniform red-only frame (`red = 100`, `green = blue = 0`): every region
pixel is accepted and the infrared average is exactly `0`. -/
def redOnlyFrame : Frame := uniformFrame 100 0 0

/-- Uniform frame with `red = 100`, `green = blue = 60`. -/
def frameA : Frame := uniformFrame 100 60 60

/-- Uniform frame with `red = 120`, `green = blue = 60`: identical to
`frameA` on every green/blue (infrared) sample. -/
def frameB : Frame := uniformFrame 120 60 60

/-- A trivial instance of the abstract collaborator record over the trivial
external state, used to run the embedded processor on concrete inputs
(the pipeline theorems below hold for every collaborator instance). -/
def trivCollab : SE.Collab Unit :=
  { lowPassFilter := fun e l _ => (l, e)
    normalizeSignal := fun e v => (v, e)
    isRealPeak := fun e _ _ _ => (false, e)
    performFFT := fun e _ => (([], []), e)
    analyzeHRV := fun e _ => (⟨false, "Normal", 0, 0, 0, 0⟩, e)
    calculateSpO2 := fun e _ _ => (⟨0, 0⟩, e)
    estimateBloodPressure := fun e _ _ => (⟨0, 0⟩, e)
    analyzeSignalQuality := fun e _ => (0, e)
    mlPredict := fun e _ => ((none, none, none), e)
    mlTrain := fun e _ _ => e
    playBeep := fun e _ => e }

/-- A trivial instance of the PP collaborator record. -/
def trivPPCollab : PP.Collab Unit Unit :=
  { lowPassFilter := fun e l _ => (l, e)
    performFFT := fun e _ => (([], []), e)
    analyzeHRV := fun e _ => (⟨false, "Normal", 0, 0, 0, 0⟩, e)
    calculateSpO2 := fun e _ _ => (0, e)
    estimateBloodPressure := fun e _ _ => (⟨0, 0⟩, e)
    estimateBloodPressureWithCalibration := fun e _ _ _ => (⟨0, 0⟩, e)
    analyzeSignalQuality := fun e _ => (0, e)
    playBeep := fun e => e }

/-- A mid-session processor state used by concrete accepted-frame runs: the
stability window already holds four samples equal to `100` and the Kalman
estimate sits at `100`, so a uniform `red = 100` frame is accepted with
composite quality `1` (its stability variance is `0`, evaluated by `sqrtFn`
only at the perfect square `0`). -/
def warmProc : SE.ProcState Unit :=
  { SE.initProc () with
      se := { SE.initExtractor with lastStabilityValues := [100, 100, 100, 100], kx := 100 } }

/-- The variant of `SE.extractChannels` that the claim "every
zero-denominator division yields 0" describes: identical code except that
the red-dominance quotient `avgRed / avgIr` is read as `0` when its
denominator is `0` (so the gate `ratio < 1.2` then rejects).  The source
instead produces a non-finite JS quotient there, which passes the gate. -/
def seExtractChannelsGuardedDom (sqrtFn : ℚ → ℚ) (s : SE.ExtractorState) (f : Frame) :
    SE.ChannelSample × SE.ExtractorState :=
  let s0 := { s with frameCount := s.frameCount + 1 }
  let a := SE.seScan f
  if a.pixelCount < 100 then (SE.zeroSample, s0)
  else
    let avgRed := a.redSum / (a.pixelCount : ℚ)
    let avgIr := a.irSum / (a.pixelCount : ℚ)
    if (if avgIr = 0 then 0 else avgRed / avgIr) < 6/5 then (SE.zeroSample, s0)
    else SE.extractAccepted sqrtFn s0 a avgRed avgIr

/-- A frame with no in-bounds pixels at all (the degenerate `ImageData`
shape): the PP scan counts zero pixels on it. -/
def emptyFrame : Frame := { width := 0, height := 0, data := fun _ => 0 }

/-- The effect of one accepted uniform pixel `(r, ir)` on the SE scan
accumulator; `seScan` on a uniform fully-accepted frame iterates this. -/
def SE.uniformStep (r irv : ℚ) (acc : SE.ScanAcc) : SE.ScanAcc :=
  { redSum := acc.redSum + r
    irSum := acc.irSum + irv
    pixelCount := acc.pixelCount + 1
    maxRed := max acc.maxRed r
    maxIr := max acc.maxIr irv
    minValidRed := some (match acc.minValidRed with
      | none => r
      | some m => min m r) }

/-- The hard-coded safe ranges of `updateSettingsWithML`:
`MIN_RED_VALUE ∈ [10, 30]`, `PEAK_THRESHOLD_FACTOR ∈ [0.3, 0.7]`,
`MIN_VALID_PIXELS_RATIO ∈ [0.1, 0.5]`. -/
def SE.SettingsSafe (st : SE.ProcessingSettings) : Prop :=
  10 ≤ st.MIN_RED_VALUE ∧ st.MIN_RED_VALUE ≤ 30 ∧
  3/10 ≤ st.PEAK_THRESHOLD_FACTOR ∧ st.PEAK_THRESHOLD_FACTOR ≤ 7/10 ∧
  1/10 ≤ st.MIN_VALID_PIXELS_RATIO ∧ st.MIN_VALID_PIXELS_RATIO ≤ 1/2

/-- State invariant of the last-accepted vitals: the stored bpm is `0` or in
the plausible band, the stored pressures are in their bands and ordered. -/
def SE.VitalsInv {σ : Type} (s : SE.ProcState σ) : Prop :=
  (s.lastValidBpm = 0 ∨ (40 ≤ s.lastValidBpm ∧ s.lastValidBpm ≤ 200)) ∧
  (90 ≤ s.lastValidSystolic ∧ s.lastValidSystolic ≤ 180) ∧
  (60 ≤ s.lastValidDiastolic ∧ s.lastValidDiastolic ≤ 120) ∧
  s.lastValidDiastolic < s.lastValidSystolic

/-- Invariant of the peak-time history of the PP processor: consecutive
accepted peaks are at least `minPeakDistance` apart, and every recorded peak
time is at most `lastPeakTime`. -/
def PP.PeaksInv {σ κ : Type} (s : PP.PPState σ κ) : Prop :=
  s.peakTimes.Chain' (fun a b => a + PP.minPeakDistance ≤ b) ∧
  ∀ t ∈ s.peakTimes, t ≤ s.lastPeakTime

/-! # Lemmas and theorems -/

theorem foldl_fixed_of_mem {α β : Type} (f : α → β → α) (l : List β)
    (h : ∀ b ∈ l, ∀ x, f x b = x) (a : α) : l.foldl f a = a := by
  induction l generalizing a with
  | nil => rfl
  | cons b bs ih =>
    rw [List.foldl_cons, h b (List.mem_cons_self b bs)]
    exact ih (fun c hc x => h c (List.mem_cons_of_mem _ hc) x) a

theorem foldl_const_step {α β : Type} (f : α → β → α) (g : α → α) (l : List β)
    (h : ∀ b ∈ l, ∀ x, f x b = g x) (a : α) : l.foldl f a = g^[l.length] a := by
  induction l generalizing a with
  | nil => rfl
  | cons b bs ih =>
    rw [List.foldl_cons, h b (List.mem_cons_self b bs), List.length_cons,
      Function.iterate_succ_apply]
    exact ih (fun c hc x => h c (List.mem_cons_of_mem _ hc) x) (g a)

theorem mem_regionOffsets {o : ℤ} (h : o ∈ SE.regionOffsets) : -50 ≤ o ∧ o < 50 := by
  simp only [SE.regionOffsets, List.mem_map] at h
  obtain ⟨k, hk, rfl⟩ := h
  rw [List.mem_range] at hk
  omega

theorem regionOffsets_length : SE.regionOffsets.length = 100 := by
  rw [SE.regionOffsets, List.length_map, List.length_range]

theorem uniformStep_iterate (r irv : ℚ) (n : ℕ) :
    (SE.uniformStep r irv)^[n + 1] SE.scanInit =
      { redSum := (n + 1 : ℚ) * r, irSum := (n + 1 : ℚ) * irv, pixelCount := n + 1,
        maxRed := max 0 r, maxIr := max 0 irv, minValidRed := some r } := by
  induction n with
  | zero =>
    simp [SE.uniformStep, SE.scanInit]
  | succ n ih =>
    rw [Function.iterate_succ_apply', ih]
    simp only [SE.uniformStep]
    rw [SE.ScanAcc.mk.injEq]
    exact ⟨by push_cast; ring, by push_cast; ring, rfl,
      by rw [max_assoc, max_self], by rw [max_assoc, max_self], by rw [min_self]⟩

theorem uniformFrame_data (r g b : ℚ) {i : ℤ} (h0 : 0 ≤ i) (h1 : i < 40000) :
    (uniformFrame r g b).data i =
      if i % 4 = 0 then r else if i % 4 = 1 then g else if i % 4 = 2 then b else 255 := by
  simp only [uniformFrame]
  rw [if_pos ⟨h0, h1⟩]

theorem scanStep_uniformFrame (r g b : ℚ) (hr : 45 < r) (hr' : r < 250)
    (y x : ℤ) (hy0 : 0 ≤ y) (hy1 : y < 100) (hx0 : 0 ≤ x) (hx1 : x < 100)
    (acc : SE.ScanAcc) :
    SE.scanStep (uniformFrame r g b) acc y x = SE.uniformStep r ((g + b) / 2) acc := by
  have hW : ((uniformFrame r g b).width : ℤ) = 100 := by norm_num [uniformFrame]
  simp only [SE.scanStep, hW]
  have hd0 : (uniformFrame r g b).data ((y * 100 + x) * 4) = r := by
    rw [uniformFrame_data r g b (by omega) (by omega), if_pos (by omega)]
  have hd1 : (uniformFrame r g b).data ((y * 100 + x) * 4 + 1) = g := by
    rw [uniformFrame_data r g b (by omega) (by omega), if_neg (by omega), if_pos (by omega)]
  have hd2 : (uniformFrame r g b).data ((y * 100 + x) * 4 + 2) = b := by
    rw [uniformFrame_data r g b (by omega) (by omega), if_neg (by omega), if_neg (by omega),
      if_pos (by omega)]
  rw [hd0, hd1, hd2, if_pos ⟨hr, hr'⟩]
  rfl

theorem seScan_uniform (r g b : ℚ) (hr : 45 < r) (hr' : r < 250) :
    SE.seScan (uniformFrame r g b) =
      { redSum := 10000 * r, irSum := 10000 * ((g + b) / 2), pixelCount := 10000,
        maxRed := max 0 r, maxIr := max 0 ((g + b) / 2), minValidRed := some r } := by
  have hstep : ∀ oy ∈ SE.regionOffsets, ∀ ox ∈ SE.regionOffsets, ∀ acc : SE.ScanAcc,
      SE.scanStep (uniformFrame r g b) acc
        (((uniformFrame r g b).height / 2 : ℕ) + oy)
        (((uniformFrame r g b).width / 2 : ℕ) + ox) =
      SE.uniformStep r ((g + b) / 2) acc := by
    intro oy hoy ox hox acc
    obtain ⟨hy1, hy2⟩ := mem_regionOffsets hoy
    obtain ⟨hx1, hx2⟩ := mem_regionOffsets hox
    have hh : (((uniformFrame r g b).height / 2 : ℕ) : ℤ) = 50 := by norm_num [uniformFrame]
    have hw : (((uniformFrame r g b).width / 2 : ℕ) : ℤ) = 50 := by norm_num [uniformFrame]
    rw [hh, hw]
    exact scanStep_uniformFrame r g b hr hr' (50 + oy) (50 + ox)
      (by omega) (by omega) (by omega) (by omega) acc
  unfold SE.seScan
  rw [foldl_const_step _ (fun acc => (SE.uniformStep r ((g + b) / 2))^[100] acc) _
    (fun oy hoy acc => by
      rw [foldl_const_step _ (SE.uniformStep r ((g + b) / 2)) _
        (fun ox hox acc2 => hstep oy hoy ox hox acc2) acc, regionOffsets_length])]
  rw [regionOffsets_length]
  have hcomp : (fun acc => (SE.uniformStep r ((g + b) / 2))^[100] acc)^[100] SE.scanInit =
      (SE.uniformStep r ((g + b) / 2))^[10000] SE.scanInit := by
    rw [show (10000 : ℕ) = 100 * 100 by norm_num, Function.iterate_mul]
  rw [hcomp, show (10000 : ℕ) = 9999 + 1 by norm_num, uniformStep_iterate]
  norm_num

theorem seScan_blackFrame : SE.seScan blackFrame = SE.scanInit := by
  unfold SE.seScan
  refine foldl_fixed_of_mem _ _ ?_ _
  intro oy _ acc
  refine foldl_fixed_of_mem _ _ ?_ acc
  intro ox _ acc2
  simp [SE.scanStep, blackFrame]

theorem seScan_frameA :
    SE.seScan frameA = ⟨1000000, 600000, 10000, 100, 60, some 100⟩ := by
  have h := seScan_uniform 100 60 60 (by norm_num) (by norm_num)
  rw [show frameA = uniformFrame 100 60 60 from rfl, h]
  norm_num

theorem seScan_frameB :
    SE.seScan frameB = ⟨1200000, 600000, 10000, 120, 60, some 120⟩ := by
  have h := seScan_uniform 120 60 60 (by norm_num) (by norm_num)
  rw [show frameB = uniformFrame 120 60 60 from rfl, h]
  norm_num

theorem seScan_redOnlyFrame :
    SE.seScan redOnlyFrame = ⟨1000000, 0, 10000, 100, 0, some 100⟩ := by
  have h := seScan_uniform 100 0 0 (by norm_num) (by norm_num)
  rw [show redOnlyFrame = uniformFrame 100 0 0 from rfl, h]
  norm_num

theorem extractChannels_blackFrame (sqrtFn : ℚ → ℚ) (s : SE.ExtractorState) :
    SE.extractChannels sqrtFn s blackFrame =
      (SE.zeroSample, { s with frameCount := s.frameCount + 1 }) := by
  simp [SE.extractChannels, seScan_blackFrame, SE.scanInit]

theorem extractChannels_redOnly_eval :
    SE.extractChannels ratSqrt SE.initExtractor redOnlyFrame =
      (⟨1100/19, 8800/259, 0, 0⟩,
       { lastRedValues := [100], lastIrValues := [0], frameCount := 1,
         lastStabilityValues := [1100/19], kp := 428/1295, kx := 8800/259,
         kk := 107/259 }) := by
  simp only [SE.extractChannels, seScan_redOnlyFrame]
  norm_num [SE.extractAccepted, SE.applyKalmanFilter, SE.calculateStability,
    pushTrim, listMean, listVarAround, SE.initExtractor, SE.zeroSample,
    min_def, max_def]

theorem extractChannels_guardedDom_redOnly_eval :
    seExtractChannelsGuardedDom ratSqrt SE.initExtractor redOnlyFrame =
      (SE.zeroSample, { SE.initExtractor with frameCount := 1 }) := by
  simp only [seExtractChannelsGuardedDom, seScan_redOnlyFrame]
  norm_num [SE.initExtractor, SE.zeroSample]

theorem extractChannels_frameA_init_eval :
    SE.extractChannels ratSqrt SE.initExtractor frameA =
      (⟨1100/19, 15220/259, 0, 0⟩,
       { lastRedValues := [100], lastIrValues := [60], frameCount := 1,
         lastStabilityValues := [1100/19], kp := 428/1295, kx := 15220/259,
         kk := 107/259 }) := by
  simp only [SE.extractChannels, seScan_frameA]
  norm_num [SE.extractAccepted, SE.applyKalmanFilter, SE.calculateStability,
    pushTrim, listMean, listVarAround, SE.initExtractor, SE.zeroSample,
    min_def, max_def]

theorem extractChannels_frameB_init_eval :
    SE.extractChannels ratSqrt SE.initExtractor frameB =
      (⟨1320/19, 16980/259, 0, 0⟩,
       { lastRedValues := [120], lastIrValues := [60], frameCount := 1,
         lastStabilityValues := [1320/19], kp := 428/1295, kx := 16980/259,
         kk := 107/259 }) := by
  simp only [SE.extractChannels, seScan_frameB]
  norm_num [SE.extractAccepted, SE.applyKalmanFilter, SE.calculateStability,
    pushTrim, listMean, listVarAround, SE.initExtractor, SE.zeroSample,
    min_def, max_def]

theorem extractChannels_warmA_eval :
    SE.extractChannels ratSqrt warmProc.se frameA =
      (⟨100, 21620/259, 1, 0⟩,
       { lastRedValues := [100], lastIrValues := [60], frameCount := 1,
         lastStabilityValues := [100, 100, 100, 100, 100], kp := 428/1295,
         kx := 21620/259, kk := 107/259 }) := by
  have hse : warmProc.se =
      { SE.initExtractor with lastStabilityValues := [100, 100, 100, 100], kx := 100 } := rfl
  rw [hse]
  simp only [SE.extractChannels, seScan_frameA]
  norm_num [SE.extractAccepted, SE.applyKalmanFilter, SE.calculateStability,
    pushTrim, listMean, listVarAround, SE.initExtractor, SE.zeroSample, ratSqrt,
    min_def, max_def]

theorem ppScan_emptyFrame : PP.ppScan emptyFrame = PP.ppAccInit := by
  unfold PP.ppScan
  refine foldl_fixed_of_mem _ _ ?_ _
  intro oy _ acc
  refine foldl_fixed_of_mem _ _ ?_ acc
  intro ox _ acc2
  simp only [PP.scanStep]
  rw [if_neg]
  rintro ⟨h1, h2, -, -⟩
  rw [show ((emptyFrame.width : ℕ) : ℤ) = 0 by norm_num [emptyFrame]] at h2
  omega

/-- Claim C7 is falsified at `redOnlyFrame`: the red-dominance quotient
`avgRed / avgIr` of `SignalExtractor.extractChannels` is evaluated with a
zero denominator (`irSum / pixelCount = 0` over `10000 ≥ 100` accepted
pixels), and the code does not behave as if that division yielded `0` — the
`0`-division reading (`seExtractChannelsGuardedDom`) rejects the frame while
the source code lets it through (in JS the quotient is `Infinity`, which is
not `< 1.2`). -/
theorem claim_C7_counterexample :
    100 ≤ (SE.seScan redOnlyFrame).pixelCount ∧
    (SE.seScan redOnlyFrame).irSum / ((SE.seScan redOnlyFrame).pixelCount : ℚ) = 0 ∧
    SE.extractChannels ratSqrt SE.initExtractor redOnlyFrame ≠
      seExtractChannelsGuardedDom ratSqrt SE.initExtractor redOnlyFrame := by
  refine ⟨by rw [seScan_redOnlyFrame]; norm_num, by rw [seScan_redOnlyFrame]; norm_num, ?_⟩
  rw [extractChannels_redOnly_eval, extractChannels_guardedDom_redOnly_eval]
  intro h
  have h1 := congrArg (fun p => p.1.red) h
  norm_num [SE.zeroSample] at h1

/-- Amended claim C7: the divisions guarded in the sources behave as the
spec says — the per-channel pixel averages of `ppgProcessor.ts` yield `0`
when no pixel was counted — but the red-dominance quotient of
`signalExtraction.ts` is unguarded: whenever the infrared average is `0`
the frame passes the dominance gate (the non-finite JS quotient compares
false against the threshold) and processing continues on the accepted
path. -/
theorem claim_C7 :
    (∀ f : Frame, (PP.ppScan f).pixelCount = 0 →
        (PP.extractChannels f).red = 0 ∧ (PP.extractChannels f).ir = 0) ∧
    (∀ (sqrtFn : ℚ → ℚ) (s : SE.ExtractorState) (f : Frame),
        ¬(SE.seScan f).pixelCount < 100 →
        (SE.seScan f).irSum / ((SE.seScan f).pixelCount : ℚ) = 0 →
        SE.extractChannels sqrtFn s f =
          SE.extractAccepted sqrtFn { s with frameCount := s.frameCount + 1 }
            (SE.seScan f) ((SE.seScan f).redSum / ((SE.seScan f).pixelCount : ℚ)) 0) := by
  constructor
  · intro f h
    simp [PP.extractChannels, h]
  · intro sqrtFn s f hcount hir
    simp only [SE.extractChannels]
    rw [if_neg hcount, if_neg (by rw [hir]; simp), hir]

theorem claim_C7_witness :
    ((PP.ppScan emptyFrame).pixelCount = 0 ∧
     (PP.extractChannels emptyFrame).red = 0 ∧ (PP.extractChannels emptyFrame).ir = 0) ∧
    (¬(SE.seScan redOnlyFrame).pixelCount < 100 ∧
     (SE.seScan redOnlyFrame).irSum / ((SE.seScan redOnlyFrame).pixelCount : ℚ) = 0 ∧
     SE.extractChannels ratSqrt SE.initExtractor redOnlyFrame =
       SE.extractAccepted ratSqrt { SE.initExtractor with frameCount := 1 }
         (SE.seScan redOnlyFrame)
         ((SE.seScan redOnlyFrame).redSum / ((SE.seScan redOnlyFrame).pixelCount : ℚ)) 0) := by
  have h0 : (PP.ppScan emptyFrame).pixelCount = 0 := by rw [ppScan_emptyFrame]; rfl
  have hc : ¬(SE.seScan redOnlyFrame).pixelCount < 100 := by
    rw [seScan_redOnlyFrame]; norm_num
  have hi : (SE.seScan redOnlyFrame).irSum / ((SE.seScan redOnlyFrame).pixelCount : ℚ) = 0 := by
    rw [seScan_redOnlyFrame]; norm_num
  exact ⟨⟨h0, claim_C7.1 emptyFrame h0⟩,
    ⟨hc, hi, claim_C7.2 ratSqrt SE.initExtractor redOnlyFrame hc hi⟩⟩

/-- Claim C10 (implicit): the two channels share one Kalman filter state —
the infrared output of `extractChannels` depends on the same frame's red
measurement.  `frameA` and `frameB` agree on every green/blue (infrared)
sample and differ only in red, yet the returned smoothed infrared values
differ. -/
theorem claim_C10 :
    (∀ i : ℤ, i % 4 ≠ 0 → frameA.data i = frameB.data i) ∧
    (SE.extractChannels ratSqrt SE.initExtractor frameA).1.ir ≠
      (SE.extractChannels ratSqrt SE.initExtractor frameB).1.ir := by
  constructor
  · intro i hi
    simp only [frameA, frameB, uniformFrame]
    by_cases hb : 0 ≤ i ∧ i < 40000
    · rw [if_pos hb, if_pos hb, if_neg hi, if_neg hi]
    · rw [if_neg hb, if_neg hb]
  · rw [extractChannels_frameA_init_eval, extractChannels_frameB_init_eval]
    norm_num

theorem claim_C10_witness :
    ((1 : ℤ) % 4 ≠ 0 ∧ frameA.data 1 = frameB.data 1) ∧
    (SE.extractChannels ratSqrt SE.initExtractor frameA).1.ir ≠
      (SE.extractChannels ratSqrt SE.initExtractor frameB).1.ir :=
  ⟨⟨by decide, claim_C10.1 1 (by decide)⟩, claim_C10.2⟩

/-- Claim C1: whenever the extracted channel quality is below the quality
floor (`qualityThreshold = 0.2`) or the extracted red value is below the
`MIN_RED_VALUE` threshold, `processFrame` clears the red buffer, the
infrared buffer, the readings and the peak-time history and returns the
all-zero snapshot (bpm 0, spo2 0, systolic 0, diastolic 0, hasArrhythmia
false, arrhythmiaType "Normal", signalQuality 0) — a total function result,
not an error. -/
theorem claim_C1 {σ : Type} (C : SE.Collab σ) (sqrtFn : ℚ → ℚ) (s : SE.ProcState σ)
    (f : Frame) (now : ℚ)
    (h : (SE.extractChannels sqrtFn s.se f).1.quality < 1/5 ∨
         (SE.extractChannels sqrtFn s.se f).1.red < s.settings.MIN_RED_VALUE) :
    SE.processFrame C sqrtFn s f now =
      (SE.zeroPPGData,
       { s with frameCount := s.frameCount + 1,
                se := (SE.extractChannels sqrtFn s.se f).2,
                redBuffer := [], irBuffer := [], readings := [], peakTimes := [] }) := by
  simp only [SE.processFrame]
  rw [if_pos h]

theorem claim_C1_witness :
    ((SE.extractChannels ratSqrt (SE.initProc ()).se blackFrame).1.quality < 1/5 ∨
     (SE.extractChannels ratSqrt (SE.initProc ()).se blackFrame).1.red <
       (SE.initProc ()).settings.MIN_RED_VALUE) ∧
    SE.processFrame trivCollab ratSqrt (SE.initProc ()) blackFrame 0 =
      (SE.zeroPPGData,
       { SE.initProc () with
           frameCount := 1,
           se := (SE.extractChannels ratSqrt (SE.initProc ()).se blackFrame).2,
           redBuffer := [], irBuffer := [], readings := [], peakTimes := [] }) := by
  have hq : (SE.extractChannels ratSqrt (SE.initProc ()).se blackFrame).1.quality < 1/5 := by
    rw [extractChannels_blackFrame]
    norm_num [SE.zeroSample]
  exact ⟨Or.inl hq, claim_C1 trivCollab ratSqrt (SE.initProc ()) blackFrame 0 (Or.inl hq)⟩

theorem warm_gate_false :
    ¬((SE.extractChannels ratSqrt warmProc.se frameA).1.quality < 1/5 ∨
      (SE.extractChannels ratSqrt warmProc.se frameA).1.red <
        warmProc.settings.MIN_RED_VALUE) := by
  rw [extractChannels_warmA_eval]
  norm_num [warmProc, SE.initProc, SE.initSettings]

theorem processFrame_timestamps_nopeak {σ : Type} (C : SE.Collab σ) (sqrtFn : ℚ → ℚ)
    (s : SE.ProcState σ) (f : Frame) (now : ℚ)
    (hpk : ∀ e v t l, (C.isRealPeak e v t l).1 = false)
    (hgate : ¬((SE.extractChannels sqrtFn s.se f).1.quality < 1/5 ∨
      (SE.extractChannels sqrtFn s.se f).1.red < s.settings.MIN_RED_VALUE))
    (hlen : s.readings.length < 300) :
    ((SE.processFrame C sqrtFn s f now).1.readings).map Prod.fst =
      (s.readings.map Prod.fst) ++ [now] := by
  simp only [SE.processFrame, SE.finalizeFrame]
  rw [if_neg hgate]
  simp only [hpk, Bool.false_eq_true, if_false, List.length_append, List.length_singleton]
  rw [if_neg (show ¬300 < s.readings.length + 1 by omega)]
  simp

theorem processFrame_warm_timestamps (now : ℚ) :
    ((SE.processFrame trivCollab ratSqrt warmProc frameA now).1.readings).map Prod.fst =
      [now] := by
  have h := processFrame_timestamps_nopeak trivCollab ratSqrt warmProc frameA now
    (fun _ _ _ _ => rfl) warm_gate_false (by norm_num [warmProc, SE.initProc])
  rw [show warmProc.readings = [] from rfl] at h
  simpa using h

/-- Claim C3 is falsified on the code as stated: `processFrame` reads the
ambient clock (`Date.now()`) and stores it in the emitted snapshot's
`readings`; two runs over the identical frame and identical starting state,
performed at different wall-clock instants, emit different snapshots. -/
theorem claim_C3_counterexample :
    (SE.processFrame trivCollab ratSqrt warmProc frameA 0).1 ≠
      (SE.processFrame trivCollab ratSqrt warmProc frameA 1000).1 := by
  intro h
  have h0 := processFrame_warm_timestamps 0
  have h1 := processFrame_warm_timestamps 1000
  rw [h, h1] at h0
  simp at h0

/-- Amended claim C3: determinism holds once the per-invocation clock
reading is counted among the inputs — the pipeline is a pure function of
the starting state and of the sequence of (frame, clock) pairs, so two runs
whose frames AND observed clock values coincide emit identical snapshot
sequences, for every collaborator instance. -/
theorem claim_C3 {σ : Type} (C : SE.Collab σ) (sqrtFn : ℚ → ℚ) (s : SE.ProcState σ)
    (inputs1 inputs2 : List (Frame × ℚ)) (h : inputs1 = inputs2) :
    SE.runProc C sqrtFn s inputs1 = SE.runProc C sqrtFn s inputs2 := by
  rw [h]

theorem claim_C3_witness :
    ([(frameA, (5 : ℚ))] : List (Frame × ℚ)) = [(frameA, (5 : ℚ))] ∧
    SE.runProc trivCollab ratSqrt warmProc [(frameA, (5 : ℚ))] =
      SE.runProc trivCollab ratSqrt warmProc [(frameA, (5 : ℚ))] :=
  ⟨rfl, claim_C3 trivCollab ratSqrt warmProc _ _ rfl⟩

/-- Claim C4: a below-floor extracted channel quality yields the explicit
"no reading" `spo2 = 0`; on the accepted (normal) path the emitted `spo2`
is the clamp `min 100 (max 75 ·)` of the estimator output, hence always in
`[75, 100]`. -/
theorem claim_C4 {σ : Type} (C : SE.Collab σ) (sqrtFn : ℚ → ℚ) (s : SE.ProcState σ)
    (f : Frame) (now : ℚ) :
    ((SE.extractChannels sqrtFn s.se f).1.quality < 1/5 →
      (SE.processFrame C sqrtFn s f now).1.spo2 = 0) ∧
    (¬((SE.extractChannels sqrtFn s.se f).1.quality < 1/5 ∨
       (SE.extractChannels sqrtFn s.se f).1.red < s.settings.MIN_RED_VALUE) →
      75 ≤ (SE.processFrame C sqrtFn s f now).1.spo2 ∧
        (SE.processFrame C sqrtFn s f now).1.spo2 ≤ 100) := by
  constructor
  · intro h
    simp only [SE.processFrame]
    rw [if_pos (Or.inl h)]
    rfl
  · intro h
    simp only [SE.processFrame]
    rw [if_neg h]
    exact ⟨le_min (by norm_num) (le_max_left _ _), min_le_left _ _⟩

theorem claim_C4_witness :
    ((SE.extractChannels ratSqrt (SE.initProc ()).se blackFrame).1.quality < 1/5 ∧
     (SE.processFrame trivCollab ratSqrt (SE.initProc ()) blackFrame 0).1.spo2 = 0) ∧
    (¬((SE.extractChannels ratSqrt warmProc.se frameA).1.quality < 1/5 ∨
       (SE.extractChannels ratSqrt warmProc.se frameA).1.red <
         warmProc.settings.MIN_RED_VALUE) ∧
     75 ≤ (SE.processFrame trivCollab ratSqrt warmProc frameA 0).1.spo2 ∧
     (SE.processFrame trivCollab ratSqrt warmProc frameA 0).1.spo2 ≤ 100) := by
  have hq : (SE.extractChannels ratSqrt (SE.initProc ()).se blackFrame).1.quality < 1/5 := by
    rw [extractChannels_blackFrame]
    norm_num [SE.zeroSample]
  exact ⟨⟨hq, (claim_C4 trivCollab ratSqrt (SE.initProc ()) blackFrame 0).1 hq⟩,
    ⟨warm_gate_false, (claim_C4 trivCollab ratSqrt warmProc frameA 0).2 warm_gate_false⟩⟩

theorem validBpmOf_mem (lastBpm : ℚ) (bpm : Option ℚ)
    (hB : lastBpm = 0 ∨ (40 ≤ lastBpm ∧ lastBpm ≤ 200)) :
    SE.validBpmOf lastBpm bpm = 0 ∨
      (40 ≤ SE.validBpmOf lastBpm bpm ∧ SE.validBpmOf lastBpm bpm ≤ 200) := by
  have hjs : jsOrZero lastBpm = 0 ∨ (40 ≤ jsOrZero lastBpm ∧ jsOrZero lastBpm ≤ 200) := by
    rcases hB with h | h
    · left; simp [jsOrZero, h]
    · rw [jsOrZero]
      split_ifs with h0
      · exact Or.inl rfl
      · exact Or.inr h
  rcases bpm with _ | b
  · exact hjs
  · rw [SE.validBpmOf]
    split_ifs with h
    · exact Or.inr h
    · exact hjs

theorem validateVitalSigns_props (lastBpm lastSys lastDia : ℚ) (bpm : Option ℚ)
    (sys dia : ℚ)
    (hB : lastBpm = 0 ∨ (40 ≤ lastBpm ∧ lastBpm ≤ 200))
    (hS : 90 ≤ lastSys ∧ lastSys ≤ 180)
    (hD : 60 ≤ lastDia ∧ lastDia ≤ 120)
    (hSD : lastDia < lastSys) :
    (((SE.validateVitalSigns lastBpm lastSys lastDia bpm sys dia).1.1 = 0 ∨
        (40 ≤ (SE.validateVitalSigns lastBpm lastSys lastDia bpm sys dia).1.1 ∧
         (SE.validateVitalSigns lastBpm lastSys lastDia bpm sys dia).1.1 ≤ 200)) ∧
     (90 ≤ (SE.validateVitalSigns lastBpm lastSys lastDia bpm sys dia).1.2.1 ∧
      (SE.validateVitalSigns lastBpm lastSys lastDia bpm sys dia).1.2.1 ≤ 180) ∧
     (60 ≤ (SE.validateVitalSigns lastBpm lastSys lastDia bpm sys dia).1.2.2 ∧
      (SE.validateVitalSigns lastBpm lastSys lastDia bpm sys dia).1.2.2 ≤ 120) ∧
     (SE.validateVitalSigns lastBpm lastSys lastDia bpm sys dia).1.2.2 <
       (SE.validateVitalSigns lastBpm lastSys lastDia bpm sys dia).1.2.1) ∧
    (((SE.validateVitalSigns lastBpm lastSys lastDia bpm sys dia).2.1 = 0 ∨
        (40 ≤ (SE.validateVitalSigns lastBpm lastSys lastDia bpm sys dia).2.1 ∧
         (SE.validateVitalSigns lastBpm lastSys lastDia bpm sys dia).2.1 ≤ 200)) ∧
     (90 ≤ (SE.validateVitalSigns lastBpm lastSys lastDia bpm sys dia).2.2.1 ∧
      (SE.validateVitalSigns lastBpm lastSys lastDia bpm sys dia).2.2.1 ≤ 180) ∧
     (60 ≤ (SE.validateVitalSigns lastBpm lastSys lastDia bpm sys dia).2.2.2 ∧
      (SE.validateVitalSigns lastBpm lastSys lastDia bpm sys dia).2.2.2 ≤ 120) ∧
     (SE.validateVitalSigns lastBpm lastSys lastDia bpm sys dia).2.2.2 <
       (SE.validateVitalSigns lastBpm lastSys lastDia bpm sys dia).2.2.1) := by
  have hvB := validBpmOf_mem lastBpm bpm hB
  simp only [SE.validateVitalSigns]
  set vS := (if 90 ≤ sys ∧ sys ≤ 180 then sys else lastSys) with hvSdef
  set vD := (if 60 ≤ dia ∧ dia ≤ 120 then dia else lastDia) with hvDdef
  have hvS : 90 ≤ vS ∧ vS ≤ 180 := by
    rw [hvSdef]
    split_ifs with h
    · exact h
    · exact hS
  have hvD : 60 ≤ vD ∧ vD ≤ 120 := by
    rw [hvDdef]
    split_ifs with h
    · exact h
    · exact hD
  split_ifs with hle
  · exact ⟨⟨hvB, hS, hD, hSD⟩, ⟨hB, hS, hD, hSD⟩⟩
  · have hlt := lt_of_not_le hle
    exact ⟨⟨hvB, hvS, hvD, hlt⟩, ⟨hvB, hvS, hvD, hlt⟩⟩

theorem saveTrainingData_keeps {σ : Type} (s : SE.ProcState σ) (b sp q : ℚ) :
    (SE.saveTrainingData s b sp q).lastValidBpm = s.lastValidBpm ∧
    (SE.saveTrainingData s b sp q).lastValidSystolic = s.lastValidSystolic ∧
    (SE.saveTrainingData s b sp q).lastValidDiastolic = s.lastValidDiastolic ∧
    (SE.saveTrainingData s b sp q).settings = s.settings := by
  simp only [SE.saveTrainingData]
  split_ifs <;> exact ⟨rfl, rfl, rfl, rfl⟩

theorem applyMLSettings_safe (st : SE.ProcessingSettings)
    (p : Option ℚ × Option ℚ × Option ℚ) (h : SE.SettingsSafe st) :
    SE.SettingsSafe (SE.applyMLSettings st p) := by
  obtain ⟨o0, o1, o2⟩ := p
  obtain ⟨h1, h2, h3, h4, h5, h6⟩ := h
  rcases o0 with _ | v0 <;> rcases o1 with _ | v1 <;> rcases o2 with _ | v2 <;>
    simp only [SE.applyMLSettings] <;>
    try exact ⟨h1, h2, h3, h4, h5, h6⟩
  split_ifs with a b c <;>
    simp_all [SE.SettingsSafe] <;> tauto

theorem processFrame_cases {σ : Type} (C : SE.Collab σ) (sqrtFn : ℚ → ℚ)
    (s : SE.ProcState σ) (f : Frame) (now : ℚ) :
    SE.processFrame C sqrtFn s f now =
      (SE.zeroPPGData,
       { s with frameCount := s.frameCount + 1,
                se := (SE.extractChannels sqrtFn s.se f).2,
                redBuffer := [], irBuffer := [], readings := [], peakTimes := [] }) ∨
    ∃ (readings0 : List (ℚ × ℚ)) (rb ib sb pt : List ℚ) (ip : Bool) (bpmO : Option ℚ)
      (hrv : SE.HRVOut) (sp : SE.SpO2Out) (bp : SE.BPOut) (sq : ℚ) (e9 : σ),
      SE.processFrame C sqrtFn s f now =
        SE.finalizeFrame C
          { s with frameCount := s.frameCount + 1,
                   se := (SE.extractChannels sqrtFn s.se f).2 }
          readings0 rb ib sb pt ip bpmO hrv sp bp sq e9 := by
  by_cases hg : (SE.extractChannels sqrtFn s.se f).1.quality < 1/5 ∨
      (SE.extractChannels sqrtFn s.se f).1.red < s.settings.MIN_RED_VALUE
  · left
    simp only [SE.processFrame]
    rw [if_pos hg]
  · right
    simp only [SE.processFrame]
    simp only [if_neg hg]
    exact ⟨_, _, _, _, _, _, _, _, _, _, _, _, rfl⟩

theorem finalizeFrame_props {σ : Type} (C : SE.Collab σ) (s : SE.ProcState σ)
    (readings0 : List (ℚ × ℚ)) (rb ib sb pt : List ℚ) (ip : Bool) (bpmO : Option ℚ)
    (hrv : SE.HRVOut) (sp : SE.SpO2Out) (bp : SE.BPOut) (sq : ℚ) (e9 : σ)
    (hB : s.lastValidBpm = 0 ∨ (40 ≤ s.lastValidBpm ∧ s.lastValidBpm ≤ 200))
    (hS : 90 ≤ s.lastValidSystolic ∧ s.lastValidSystolic ≤ 180)
    (hD : 60 ≤ s.lastValidDiastolic ∧ s.lastValidDiastolic ≤ 120)
    (hSD : s.lastValidDiastolic < s.lastValidSystolic)
    (hSafe : SE.SettingsSafe s.settings) :
    (SE.VitalsInv (SE.finalizeFrame C s readings0 rb ib sb pt ip bpmO hrv sp bp sq e9).2 ∧
     SE.SettingsSafe
       (SE.finalizeFrame C s readings0 rb ib sb pt ip bpmO hrv sp bp sq e9).2.settings) ∧
    ((SE.finalizeFrame C s readings0 rb ib sb pt ip bpmO hrv sp bp sq e9).1.spo2 = 0 ∨
      (75 ≤ (SE.finalizeFrame C s readings0 rb ib sb pt ip bpmO hrv sp bp sq e9).1.spo2 ∧
       (SE.finalizeFrame C s readings0 rb ib sb pt ip bpmO hrv sp bp sq e9).1.spo2 ≤ 100)) ∧
    ((SE.finalizeFrame C s readings0 rb ib sb pt ip bpmO hrv sp bp sq e9).1.bpm = 0 ∨
      (40 ≤ (SE.finalizeFrame C s readings0 rb ib sb pt ip bpmO hrv sp bp sq e9).1.bpm ∧
       (SE.finalizeFrame C s readings0 rb ib sb pt ip bpmO hrv sp bp sq e9).1.bpm ≤ 200)) ∧
    (((SE.finalizeFrame C s readings0 rb ib sb pt ip bpmO hrv sp bp sq e9).1.systolic = 0 ∧
      (SE.finalizeFrame C s readings0 rb ib sb pt ip bpmO hrv sp bp sq e9).1.diastolic = 0) ∨
     (SE.finalizeFrame C s readings0 rb ib sb pt ip bpmO hrv sp bp sq e9).1.diastolic <
       (SE.finalizeFrame C s readings0 rb ib sb pt ip bpmO hrv sp bp sq e9).1.systolic) := by
  have hv := validateVitalSigns_props s.lastValidBpm s.lastValidSystolic
    s.lastValidDiastolic bpmO bp.systolic bp.diastolic hB hS hD hSD
  simp only [SE.finalizeFrame]
  split
  · refine ⟨⟨⟨?_, ?_, ?_, ?_⟩, ?_⟩, Or.inr ⟨le_min (by norm_num) (le_max_left _ _),
      min_le_left _ _⟩, hv.1.1, Or.inr hv.1.2.2.2⟩
    · rw [(saveTrainingData_keeps _ _ _ _).1]
      exact hv.2.1
    · rw [(saveTrainingData_keeps _ _ _ _).2.1]
      exact hv.2.2.1
    · rw [(saveTrainingData_keeps _ _ _ _).2.2.1]
      exact hv.2.2.2.1
    · rw [(saveTrainingData_keeps _ _ _ _).2.2.1, (saveTrainingData_keeps _ _ _ _).2.1]
      exact hv.2.2.2.2
    · rw [(saveTrainingData_keeps _ _ _ _).2.2.2]
      exact applyMLSettings_safe _ _ hSafe
  · exact ⟨⟨⟨hv.2.1, hv.2.2.1, hv.2.2.2.1, hv.2.2.2.2⟩, hSafe⟩,
      Or.inr ⟨le_min (by norm_num) (le_max_left _ _), min_le_left _ _⟩,
      hv.1.1, Or.inr hv.1.2.2.2⟩

theorem processFrame_inv {σ : Type} (C : SE.Collab σ) (sqrtFn : ℚ → ℚ)
    (s : SE.ProcState σ) (f : Frame) (now : ℚ)
    (hV : SE.VitalsInv s) (hSafe : SE.SettingsSafe s.settings) :
    (SE.VitalsInv (SE.processFrame C sqrtFn s f now).2 ∧
     SE.SettingsSafe (SE.processFrame C sqrtFn s f now).2.settings) ∧
    ((SE.processFrame C sqrtFn s f now).1.spo2 = 0 ∨
      (75 ≤ (SE.processFrame C sqrtFn s f now).1.spo2 ∧
       (SE.processFrame C sqrtFn s f now).1.spo2 ≤ 100)) ∧
    ((SE.processFrame C sqrtFn s f now).1.bpm = 0 ∨
      (40 ≤ (SE.processFrame C sqrtFn s f now).1.bpm ∧
       (SE.processFrame C sqrtFn s f now).1.bpm ≤ 200)) ∧
    (((SE.processFrame C sqrtFn s f now).1.systolic = 0 ∧
      (SE.processFrame C sqrtFn s f now).1.diastolic = 0) ∨
     (SE.processFrame C sqrtFn s f now).1.diastolic <
       (SE.processFrame C sqrtFn s f now).1.systolic) := by
  obtain ⟨hB, hS, hD, hSD⟩ := hV
  rcases processFrame_cases C sqrtFn s f now with h |
    ⟨r0, rb, ib, sb, pt, ip, bpmO, hrv, sp, bp, sq, e9, h⟩
  · rw [h]
    exact ⟨⟨⟨hB, hS, hD, hSD⟩, hSafe⟩, Or.inl rfl, Or.inl rfl, Or.inl ⟨rfl, rfl⟩⟩
  · rw [h]
    exact finalizeFrame_props C _ r0 rb ib sb pt ip bpmO hrv sp bp sq e9 hB hS hD hSD hSafe

theorem runProc_inv {σ : Type} (C : SE.Collab σ) (sqrtFn : ℚ → ℚ)
    (inputs : List (Frame × ℚ)) :
    ∀ s : SE.ProcState σ, SE.VitalsInv s → SE.SettingsSafe s.settings →
      (SE.VitalsInv (SE.runProc C sqrtFn s inputs).2 ∧
       SE.SettingsSafe (SE.runProc C sqrtFn s inputs).2.settings) ∧
      ∀ d ∈ (SE.runProc C sqrtFn s inputs).1,
        (d.spo2 = 0 ∨ (75 ≤ d.spo2 ∧ d.spo2 ≤ 100)) ∧
        (d.bpm = 0 ∨ (40 ≤ d.bpm ∧ d.bpm ≤ 200)) ∧
        ((d.systolic = 0 ∧ d.diastolic = 0) ∨ d.diastolic < d.systolic) := by
  induction inputs with
  | nil =>
    intro s hV hSafe
    exact ⟨⟨hV, hSafe⟩, by intro d hd; simp [SE.runProc] at hd⟩
  | cons p rest ih =>
    obtain ⟨f, t⟩ := p
    intro s hV hSafe
    have hstep := processFrame_inv C sqrtFn s f t hV hSafe
    have hrest := ih (SE.processFrame C sqrtFn s f t).2 hstep.1.1 hstep.1.2
    refine ⟨hrest.1, ?_⟩
    intro d hd
    simp only [SE.runProc, List.mem_cons] at hd
    rcases hd with hd | hd
    · rw [hd]
      exact hstep.2
    · exact hrest.2 d hd

theorem initProc_inv {σ : Type} (e0 : σ) :
    SE.VitalsInv (SE.initProc e0) ∧ SE.SettingsSafe (SE.initProc e0).settings := by
  refine ⟨⟨Or.inl rfl, ?_, ?_, ?_⟩, ?_⟩ <;>
    norm_num [SE.initProc, SE.initSettings, SE.SettingsSafe]

/-- Claim C5: every snapshot emitted over any input sequence from the fresh
processor has `spo2 ∈ {0} ∪ [75, 100]` and `bpm ∈ {0} ∪ [40, 200]`, for
every collaborator instance and square-root routine. -/
theorem claim_C5 (σ : Type) (C : SE.Collab σ) (sqrtFn : ℚ → ℚ) (e0 : σ)
    (inputs : List (Frame × ℚ)) (d : SE.PPGData)
    (hd : d ∈ (SE.runProc C sqrtFn (SE.initProc e0) inputs).1) :
    (d.spo2 = 0 ∨ (75 ≤ d.spo2 ∧ d.spo2 ≤ 100)) ∧
    (d.bpm = 0 ∨ (40 ≤ d.bpm ∧ d.bpm ≤ 200)) := by
  have h := (runProc_inv C sqrtFn inputs (SE.initProc e0)
    (initProc_inv e0).1 (initProc_inv e0).2).2 d hd
  exact ⟨h.1, h.2.1⟩

/-- Claim C2: over any input sequence from the fresh processor, every
emitted snapshot has either zero pressures or `systolic > diastolic`; and
whenever the range-validated systolic is not above the range-validated
diastolic, `validateVitalSigns` returns the stored last-valid pressure pair
instead of the new values. -/
theorem claim_C2 :
    (∀ (σ : Type) (C : SE.Collab σ) (sqrtFn : ℚ → ℚ) (e0 : σ)
       (inputs : List (Frame × ℚ)) (d : SE.PPGData),
       d ∈ (SE.runProc C sqrtFn (SE.initProc e0) inputs).1 →
       (d.systolic = 0 ∧ d.diastolic = 0) ∨ d.diastolic < d.systolic) ∧
    (∀ (lastBpm lastSys lastDia : ℚ) (bpm : Option ℚ) (sys dia : ℚ),
       (if 90 ≤ sys ∧ sys ≤ 180 then sys else lastSys) ≤
         (if 60 ≤ dia ∧ dia ≤ 120 then dia else lastDia) →
       (SE.validateVitalSigns lastBpm lastSys lastDia bpm sys dia).1.2.1 = lastSys ∧
       (SE.validateVitalSigns lastBpm lastSys lastDia bpm sys dia).1.2.2 = lastDia) := by
  constructor
  · intro σ C sqrtFn e0 inputs d hd
    exact ((runProc_inv C sqrtFn inputs (SE.initProc e0)
      (initProc_inv e0).1 (initProc_inv e0).2).2 d hd).2.2
  · intro lastBpm lastSys lastDia bpm sys dia h
    simp only [SE.validateVitalSigns]
    rw [if_pos h]
    exact ⟨rfl, rfl⟩

/-- Claim C9: the ML-adapted thresholds stay inside their hard-coded safe
ranges over every run from the fresh processor; a prediction with a `NaN`
component leaves the settings unchanged, and a component outside its range
leaves the corresponding threshold unchanged. -/
theorem claim_C9 :
    (∀ (σ : Type) (C : SE.Collab σ) (sqrtFn : ℚ → ℚ) (e0 : σ)
       (inputs : List (Frame × ℚ)),
       SE.SettingsSafe (SE.runProc C sqrtFn (SE.initProc e0) inputs).2.settings) ∧
    (∀ (st : SE.ProcessingSettings) (p : Option ℚ × Option ℚ × Option ℚ),
       (p.1 = none ∨ p.2.1 = none ∨ p.2.2 = none) → SE.applyMLSettings st p = st) ∧
    (∀ (st : SE.ProcessingSettings) (v0 v1 v2 : ℚ), ¬(10 ≤ v0 ∧ v0 ≤ 30) →
       (SE.applyMLSettings st (some v0, some v1, some v2)).MIN_RED_VALUE =
         st.MIN_RED_VALUE) ∧
    (∀ (st : SE.ProcessingSettings) (v0 v1 v2 : ℚ), ¬(3/10 ≤ v1 ∧ v1 ≤ 7/10) →
       (SE.applyMLSettings st (some v0, some v1, some v2)).PEAK_THRESHOLD_FACTOR =
         st.PEAK_THRESHOLD_FACTOR) ∧
    (∀ (st : SE.ProcessingSettings) (v0 v1 v2 : ℚ), ¬(1/10 ≤ v2 ∧ v2 ≤ 1/2) →
       SE.ProcessingSettings.MIN_VALID_PIXELS_RATIO
         (SE.applyMLSettings st (some v0, some v1, some v2)) =
         st.MIN_VALID_PIXELS_RATIO) := by
  refine ⟨?_, ?_, ?_, ?_, ?_⟩
  · intro σ C sqrtFn e0 inputs
    exact (runProc_inv C sqrtFn inputs (SE.initProc e0)
      (initProc_inv e0).1 (initProc_inv e0).2).1.2
  · rintro st ⟨o0, o1, o2⟩ h
    rcases o0 with _ | v0 <;> rcases o1 with _ | v1 <;> rcases o2 with _ | v2 <;>
      simp only [SE.applyMLSettings] <;> simp at h
  · intro st v0 v1 v2 h
    simp only [SE.applyMLSettings]
    rw [if_neg h]
    split_ifs <;> rfl
  · intro st v0 v1 v2 h
    simp only [SE.applyMLSettings]
    rw [if_neg h]
    split_ifs <;> rfl
  · intro st v0 v1 v2 h
    simp only [SE.applyMLSettings]
    rw [if_neg h]
    split_ifs <;> rfl

theorem processFrame_gate_eq {σ : Type} (C : SE.Collab σ) (sqrtFn : ℚ → ℚ)
    (s : SE.ProcState σ) (f : Frame) (now : ℚ)
    (h : (SE.extractChannels sqrtFn s.se f).1.quality < 1/5 ∨
         (SE.extractChannels sqrtFn s.se f).1.red < s.settings.MIN_RED_VALUE) :
    SE.processFrame C sqrtFn s f now =
      (SE.zeroPPGData,
       { s with frameCount := s.frameCount + 1,
                se := (SE.extractChannels sqrtFn s.se f).2,
                redBuffer := [], irBuffer := [], readings := [], peakTimes := [] }) := by
  simp only [SE.processFrame]
  rw [if_pos h]

theorem processFrame_black_zero :
    (SE.processFrame trivCollab ratSqrt (SE.initProc ()) blackFrame 0).1 =
      SE.zeroPPGData := by
  rw [processFrame_gate_eq trivCollab ratSqrt (SE.initProc ()) blackFrame 0
    (Or.inl (show (SE.extractChannels ratSqrt (SE.initProc ()).se blackFrame).1.quality < 1/5
      by rw [extractChannels_blackFrame]; norm_num [SE.zeroSample]))]

set_option maxRecDepth 20000 in
theorem zero_mem_black_run :
    SE.zeroPPGData ∈ (SE.runProc trivCollab ratSqrt (SE.initProc ()) [(blackFrame, 0)]).1 := by
  simp only [SE.runProc]
  rw [processFrame_black_zero]
  exact List.mem_cons_self _ _

theorem claim_C5_witness :
    SE.zeroPPGData ∈ (SE.runProc trivCollab ratSqrt (SE.initProc ()) [(blackFrame, 0)]).1 ∧
    (SE.zeroPPGData.spo2 = 0 ∨ (75 ≤ SE.zeroPPGData.spo2 ∧ SE.zeroPPGData.spo2 ≤ 100)) ∧
    (SE.zeroPPGData.bpm = 0 ∨ (40 ≤ SE.zeroPPGData.bpm ∧ SE.zeroPPGData.bpm ≤ 200)) :=
  ⟨zero_mem_black_run,
   claim_C5 Unit trivCollab ratSqrt () [(blackFrame, 0)] SE.zeroPPGData zero_mem_black_run⟩

theorem claim_C2_witness :
    (SE.zeroPPGData ∈ (SE.runProc trivCollab ratSqrt (SE.initProc ()) [(blackFrame, 0)]).1 ∧
     ((SE.zeroPPGData.systolic = 0 ∧ SE.zeroPPGData.diastolic = 0) ∨
       SE.zeroPPGData.diastolic < SE.zeroPPGData.systolic)) ∧
    ((if (90:ℚ) ≤ 100 ∧ (100:ℚ) ≤ 180 then (100:ℚ) else 120) ≤
       (if (60:ℚ) ≤ 110 ∧ (110:ℚ) ≤ 120 then (110:ℚ) else 80) ∧
     (SE.validateVitalSigns 0 120 80 none 100 110).1.2.1 = 120 ∧
     (SE.validateVitalSigns 0 120 80 none 100 110).1.2.2 = 80) :=
  ⟨⟨zero_mem_black_run,
    claim_C2.1 Unit trivCollab ratSqrt () [(blackFrame, 0)] SE.zeroPPGData zero_mem_black_run⟩,
   ⟨by norm_num, (claim_C2.2 0 120 80 none 100 110 (by norm_num)).1,
    (claim_C2.2 0 120 80 none 100 110 (by norm_num)).2⟩⟩

theorem claim_C9_witness :
    (SE.applyMLSettings SE.initSettings (none, some 1, some 1) = SE.initSettings) ∧
    (¬(10 ≤ (50:ℚ) ∧ (50:ℚ) ≤ 30) ∧
     (SE.applyMLSettings SE.initSettings
       (some 50, some (1/2), some (1/4))).MIN_RED_VALUE = SE.initSettings.MIN_RED_VALUE) ∧
    (¬(3/10 ≤ (2:ℚ) ∧ (2:ℚ) ≤ 7/10) ∧
     (SE.applyMLSettings SE.initSettings
       (some 50, some 2, some (1/4))).PEAK_THRESHOLD_FACTOR =
       SE.initSettings.PEAK_THRESHOLD_FACTOR) ∧
    (¬(1/10 ≤ (3:ℚ) ∧ (3:ℚ) ≤ 1/2) ∧
     SE.ProcessingSettings.MIN_VALID_PIXELS_RATIO
       (SE.applyMLSettings SE.initSettings (some 50, some (1/2), some 3)) =
       SE.initSettings.MIN_VALID_PIXELS_RATIO) :=
  ⟨claim_C9.2.1 SE.initSettings (none, some 1, some 1) (Or.inl rfl),
   ⟨by norm_num, claim_C9.2.2.1 SE.initSettings 50 (1/2) (1/4) (by norm_num)⟩,
   ⟨by norm_num, claim_C9.2.2.2.1 SE.initSettings 50 2 (1/4) (by norm_num)⟩,
   ⟨by norm_num, claim_C9.2.2.2.2 SE.initSettings 50 (1/2) 3 (by norm_num)⟩⟩

theorem isRealPeak_state {σ κ : Type} (beep : σ → σ) (s : PP.PPState σ κ) (v now : ℚ) :
    (PP.isRealPeak beep s v now).2.peakTimes = s.peakTimes ∧
    (PP.isRealPeak beep s v now).2.lastPeakTime = s.lastPeakTime := by
  simp only [PP.isRealPeak]
  split_ifs <;> exact ⟨rfl, rfl⟩

theorem isRealPeak_true_gap {σ κ : Type} (beep : σ → σ) (s : PP.PPState σ κ) (v now : ℚ)
    (h : (PP.isRealPeak beep s v now).1 = true) :
    PP.minPeakDistance ≤ now - s.lastPeakTime := by
  by_contra hlt
  push_neg at hlt
  simp only [PP.isRealPeak] at h
  rw [if_pos hlt] at h
  simp at h

theorem finishFrame_state_peak {σ κ : Type} (C : PP.Collab σ κ)
    (rb ib fr : List ℚ) (pkr : Bool × PP.PPState σ κ) (now : ℚ) (hip : pkr.1 = true) :
    (PP.finishFrame C rb ib fr pkr now).2.lastPeakTime = now ∧
    (PP.finishFrame C rb ib fr pkr now).2.peakTimes =
      (if 10 < (pkr.2.peakTimes ++ [now]).length then (pkr.2.peakTimes ++ [now]).tail
       else pkr.2.peakTimes ++ [now]) := by
  simp [PP.finishFrame, hip]

theorem finishFrame_state_nopeak {σ κ : Type} (C : PP.Collab σ κ)
    (rb ib fr : List ℚ) (pkr : Bool × PP.PPState σ κ) (now : ℚ) (hip : pkr.1 = false) :
    (PP.finishFrame C rb ib fr pkr now).2.lastPeakTime = pkr.2.lastPeakTime ∧
    (PP.finishFrame C rb ib fr pkr now).2.peakTimes = pkr.2.peakTimes := by
  simp [PP.finishFrame, hip]

set_option maxHeartbeats 1600000 in
theorem pp_processFrame_cases {σ κ : Type} (C : PP.Collab σ κ) (s : PP.PPState σ κ)
    (f : Frame) (now : ℚ) :
    PP.processFrame C s f now = (none, s) ∨
    ∃ (rb ib fr : List ℚ) (sMid : PP.PPState σ κ) (nv : ℚ),
      sMid.peakTimes = s.peakTimes ∧ sMid.lastPeakTime = s.lastPeakTime ∧
      PP.processFrame C s f now =
        PP.finishFrame C rb ib fr (PP.isRealPeak C.playBeep sMid nv now) now := by
  by_cases hq : PP.qualityLow (PP.extractChannels f).quality = true
  · left
    simp only [PP.processFrame]
    rw [if_pos hq]
  · right
    simp only [PP.processFrame]
    simp only [if_neg hq]
    refine ⟨_, _, _, _, _, ?h1, ?h2, rfl⟩ <;> rfl

theorem peaksInv_push (l : List ℚ) (L now : ℚ)
    (hch : l.Chain' (fun a b => a + PP.minPeakDistance ≤ b))
    (hbd : ∀ t ∈ l, t ≤ L) (hgap : PP.minPeakDistance ≤ now - L) :
    (l ++ [now]).Chain' (fun a b => a + PP.minPeakDistance ≤ b) ∧
    ∀ t ∈ l ++ [now], t ≤ now := by
  have hLnow : L + PP.minPeakDistance ≤ now := by linarith
  have hpos : (0 : ℚ) ≤ PP.minPeakDistance := by norm_num [PP.minPeakDistance]
  constructor
  · rw [List.chain'_append]
    refine ⟨hch, List.chain'_singleton _, ?_⟩
    intro x hx y hy
    obtain ⟨hne, rfl⟩ := List.mem_getLast?_eq_getLast hx
    have hxl : l.getLast hne ∈ l := List.getLast_mem hne
    have hxL := hbd _ hxl
    simp only [List.head?_cons, Option.mem_def, Option.some.injEq] at hy
    subst hy
    linarith
  · intro t ht
    rcases List.mem_append.mp ht with ht | ht
    · have := hbd t ht
      linarith
    · simp only [List.mem_singleton] at ht
      exact le_of_eq ht

theorem pp_processFrame_peaksInv {σ κ : Type} (C : PP.Collab σ κ) (s : PP.PPState σ κ)
    (f : Frame) (now : ℚ) (h : PP.PeaksInv s) :
    PP.PeaksInv (PP.processFrame C s f now).2 := by
  obtain ⟨hch, hbd⟩ := h
  rcases pp_processFrame_cases C s f now with he | ⟨rb, ib, fr, sMid, nv, hpt, hlpt, he⟩
  · rw [he]
    exact ⟨hch, hbd⟩
  · rw [he]
    have hstate := isRealPeak_state C.playBeep sMid nv now
    by_cases hip : (PP.isRealPeak C.playBeep sMid nv now).1 = true
    · have hgap := isRealPeak_true_gap C.playBeep sMid nv now hip
      rw [hlpt] at hgap
      have hfin := finishFrame_state_peak C rb ib fr (PP.isRealPeak C.playBeep sMid nv now)
        now hip
      have hpush := peaksInv_push s.peakTimes s.lastPeakTime now hch hbd hgap
      rw [hstate.1, hpt] at hfin
      constructor
      · rw [hfin.2]
        split_ifs
        · exact List.Chain'.tail hpush.1
        · exact hpush.1
      · intro t ht
        rw [hfin.2] at ht
        rw [hfin.1]
        split_ifs at ht with hlen
        · exact hpush.2 t (List.tail_subset _ ht)
        · exact hpush.2 t ht
    · rw [Bool.not_eq_true] at hip
      have hfin := finishFrame_state_nopeak C rb ib fr (PP.isRealPeak C.playBeep sMid nv now)
        now hip
      rw [hstate.1, hpt] at hfin
      rw [hstate.2, hlpt] at hfin
      constructor
      · rw [hfin.2]
        exact hch
      · intro t ht
        rw [hfin.2] at ht
        rw [hfin.1]
        exact hbd t ht

theorem runPP_peaksInv {σ κ : Type} (C : PP.Collab σ κ) (inputs : List (Frame × ℚ)) :
    ∀ s : PP.PPState σ κ, PP.PeaksInv s → PP.PeaksInv (PP.runPP C s inputs).2 := by
  induction inputs with
  | nil => intro s h; exact h
  | cons p rest ih =>
    obtain ⟨f, t⟩ := p
    intro s h
    exact ih _ (pp_processFrame_peaksInv C s f t h)

/-- Claim C6: a candidate arriving less than `minPeakDistance` milliseconds
after the last accepted peak is always rejected by `isRealPeak`, and over
every run of the processor from its fresh state, any two consecutive
entries of the peak-time history are at least `minPeakDistance` apart. -/
theorem claim_C6 :
    (∀ (σ κ : Type) (beep : σ → σ) (s : PP.PPState σ κ) (v now : ℚ),
       now - s.lastPeakTime < PP.minPeakDistance →
       (PP.isRealPeak beep s v now).1 = false) ∧
    (∀ (σ κ : Type) (C : PP.Collab σ κ) (e0 : σ) (inputs : List (Frame × ℚ)),
       (PP.runPP C (PP.initPP e0 : PP.PPState σ κ) inputs).2.peakTimes.Chain'
         (fun a b => a + PP.minPeakDistance ≤ b)) := by
  constructor
  · intro σ κ beep s v now h
    simp only [PP.isRealPeak]
    rw [if_pos h]
  · intro σ κ C e0 inputs
    have hinit : PP.PeaksInv (PP.initPP e0 : PP.PPState σ κ) := by
      constructor
      · exact List.chain'_nil
      · intro t ht
        simp [PP.initPP] at ht
    exact (runPP_peaksInv C inputs _ hinit).1

theorem claim_C6_witness :
    ((0 : ℚ) - (PP.initPP () : PP.PPState Unit Unit).lastPeakTime < PP.minPeakDistance) ∧
    (PP.isRealPeak (fun e => e) (PP.initPP () : PP.PPState Unit Unit) 0 0).1 = false ∧
    (PP.runPP trivPPCollab (PP.initPP () : PP.PPState Unit Unit) []).2.peakTimes.Chain'
      (fun a b => a + PP.minPeakDistance ≤ b) :=
  ⟨by norm_num [PP.initPP, PP.minPeakDistance],
   claim_C6.1 Unit Unit (fun e => e) (PP.initPP ()) 0 0
     (by norm_num [PP.initPP, PP.minPeakDistance]),
   claim_C6.2 Unit Unit trivPPCollab () []⟩

theorem hrv_scenarioD :
    UA.calculateHeartRateVariability UA.scenarioDPeaks = Real.sqrt 56480 / 925 := by
  simp only [UA.calculateHeartRateVariability]
  rw [if_neg (by norm_num [UA.scenarioDPeaks])]
  have h1 : UA.intervalsOfPeaks UA.scenarioDPeaks = [800, 820, 795, 1400, 810] := by
    norm_num [UA.intervalsOfPeaks, UA.scenarioDPeaks]
  rw [h1]
  have h2 : listMean [(800 : ℚ), 820, 795, 1400, 810] = 925 := by
    norm_num [listMean]
  rw [h2]
  have h3 : listVarAround [(800 : ℚ), 820, 795, 1400, 810] 925 = 56480 := by
    norm_num [listVarAround]
  rw [h3]
  norm_num

/-- Claim C8: the arrhythmia flag equals "coefficient of variation of the
inter-beat intervals exceeds 0.2", the emitted label is binary ("Irregular"
exactly when flagged, "Normal" otherwise), and the Scenario D intervals
[800, 820, 795, 1400, 810] ms are flagged and labelled "Irregular". -/
theorem claim_C8 :
    (∀ peaks : List ℚ,
       UA.uaHasArrhythmia peaks ↔ UA.calculateHeartRateVariability peaks > 1/5) ∧
    (∀ peaks : List ℚ,
       (UA.uaArrhythmiaType peaks = "Irregular" ↔ UA.uaHasArrhythmia peaks) ∧
       (UA.uaArrhythmiaType peaks = "Irregular" ∨ UA.uaArrhythmiaType peaks = "Normal")) ∧
    (UA.intervalsOfPeaks UA.scenarioDPeaks = [800, 820, 795, 1400, 810] ∧
     UA.uaHasArrhythmia UA.scenarioDPeaks ∧
     UA.uaArrhythmiaType UA.scenarioDPeaks = "Irregular") := by
  have hflag : UA.uaHasArrhythmia UA.scenarioDPeaks := by
    rw [UA.uaHasArrhythmia, hrv_scenarioD]
    rw [gt_iff_lt, lt_div_iff₀ (by norm_num : (0 : ℝ) < 925)]
    have h185 : (185 : ℝ) < Real.sqrt 56480 := by
      rw [show (185 : ℝ) = Real.sqrt (185 ^ 2) by
            rw [Real.sqrt_sq (by norm_num : (0 : ℝ) ≤ 185)]]
      exact Real.sqrt_lt_sqrt (by norm_num) (by norm_num)
    linarith
  have hlab : ∀ peaks : List ℚ,
      (UA.uaArrhythmiaType peaks = "Irregular" ↔ UA.uaHasArrhythmia peaks) ∧
      (UA.uaArrhythmiaType peaks = "Irregular" ∨ UA.uaArrhythmiaType peaks = "Normal") := by
    intro peaks
    rw [UA.uaArrhythmiaType]
    by_cases h : UA.uaHasArrhythmia peaks
    · rw [if_pos h]
      exact ⟨⟨fun _ => h, fun _ => rfl⟩, Or.inl rfl⟩
    · rw [if_neg h]
      refine ⟨⟨fun he => absurd he (by decide), fun hh => absurd hh h⟩, Or.inr rfl⟩
  refine ⟨fun peaks => Iff.rfl, hlab, ?_, hflag, ?_⟩
  · norm_num [UA.intervalsOfPeaks, UA.scenarioDPeaks]
  · exact ((hlab UA.scenarioDPeaks).1).mpr hflag
